import Mathlib

/-!
Verification of the SightMate interaction orchestrator (App.tsx / types.ts)
against its natural-language specification.  The TypeScript source is shallowly
embedded: enums become inductives, the React session state becomes an explicit
record, and each asynchronous routine becomes a pure function from its inputs
(including an environment supplying the results of external calls and the value
of mutable refs at each suspension point) to a final state plus an ordered
trace of observable effects.
-/

namespace SightMate

/-! ## Data model (types.ts) -/

/-- `AppState` enum from types.ts. -/
inductive AppState where
  | IDLE | LISTENING | PROCESSING_INTENT | CAPTURING | ANALYZING | SPEAKING
  | WALKING | NAVIGATING | EMERGENCY_CHECK | EMERGENCY_ACTING | ERROR
  deriving DecidableEq, Repr

/-- `IntentType` enum from types.ts. -/
inductive IntentType where
  | DESCRIBE | READ_TEXT | SAFETY_CHECK | HANDS_FREE_ON | HANDS_FREE_OFF
  | WALKING_MODE_ON | WALKING_MODE_OFF | NAVIGATE | STOP_NAVIGATION
  | WHERE_AM_I | COMPANION_MODE_ON | COMPANION_MODE_OFF | UNKNOWN
  deriving DecidableEq, Repr

/-- `EmergencySeverity` union type from types.ts. -/
inductive EmergencySeverity where
  | low | medium | high
  deriving DecidableEq, Repr

/-- The closed `category` union of `WalkingHazard` in types.ts. -/
inductive HazardCategory where
  | ground | level_change | obstacle | moving | structural | environmental
  | animal | personal | fall | none
  deriving DecidableEq, Repr

/-- `WalkingHazard` interface from types.ts.  `direction`, `distance` and
`confidence` are carried for fidelity but never inspected by the orchestrator
logic embedded here; the numeric `confidence` is represented as a natural. -/
structure WalkingHazard where
  hazard_type : String
  category : HazardCategory
  description : String
  direction : String
  distance : String
  severity : EmergencySeverity
  message : String
  confidence : Nat
  deriving DecidableEq, Repr

/-- `NavigationPlan` interface from types.ts. -/
structure NavigationPlan where
  destination : String
  steps : List String
  totalDistance : String
  totalTime : String
  deriving DecidableEq, Repr

/-- Opaque stand-in for `GeolocationCoordinates`; the orchestrator only ever
passes coordinates through to external calls. -/
structure Coords where
  latitude : Int
  longitude : Int
  deriving DecidableEq, Repr

/-- `IntentResult` interface from types.ts. -/
structure IntentResult where
  type : IntentType
  confidence : Nat
  originalQuery : String
  detailLevel : Option String := Option.none
  destination : Option String := Option.none
  deriving DecidableEq, Repr

/-! ## JavaScript string primitives used by the orchestrator -/

/-- JS `String.prototype.includes`: substring containment. -/
def strIncludes (s pat : String) : Bool :=
  s.toList.tails.any fun t => pat.toList.isPrefixOf t

/-- JS `String.prototype.toLowerCase`, restricted to the per-character
lowercasing that the ASCII keyword tokens of the source exercise. -/
def jsToLower (s : String) : String :=
  String.mk (s.toList.map Char.toLower)

/-- JS `response.trim().length === 0`: every character is whitespace. -/
def trimmedEmpty (s : String) : Bool :=
  s.toList.all Char.isWhitespace

/-! ## Emergency escalation protocol (App.tsx lines 126-204)

`performEmergencyVerification` / `handleNoResponse` are embedded as a pure
recursive function.  External listens are supplied by a function from the
attempt number to a listen outcome; a rejected listen promise is
`ListenOutcome.failure`.  The embedding assumes the app stays in
`EMERGENCY_CHECK` for the duration of the dialog (no concurrent button press),
which is the situation all the claims quantify over. -/

/-- Outcome of one `audioService.listen` call: a resolved transcript or a
rejected promise. -/
inductive ListenOutcome where
  | result (transcript : String)
  | failure
  deriving DecidableEq, Repr

/-- Observable events of the emergency dialog. -/
inductive EmEvent where
  | stoppedSpeaking
  | spoke (text : String) (priority : Bool)
  | listened (windowSeconds : Nat)
  | playedSound (kind : String)
  deriving DecidableEq, Repr

/-- Classification of an emergency verification reply, App.tsx lines 157-168:
affirmative substrings are tested first, then distress substrings. -/
inductive ReplyClass where
  | safe | danger | ambiguous
  deriving DecidableEq, Repr

def affirmativeTokens : List String := ["ok", "fine", "good", "safe", "yes"]

def distressTokens : List String := ["no", "help", "hurt", "pain", "call"]

/-- Lines 157-168 of App.tsx: lowercase the reply, then test the affirmative
token list, then the distress token list. -/
def classifyReply (response : String) : ReplyClass :=
  let cleaned := jsToLower response
  if affirmativeTokens.any (fun t => strIncludes cleaned t) then .safe
  else if distressTokens.any (fun t => strIncludes cleaned t) then .danger
  else .ambiguous

/-- `restoreState` (App.tsx lines 359-363) as a function of the two feature
toggles (read through their refs). -/
def restoreMode (navigating walkingActive : Bool) : AppState :=
  if navigating then .NAVIGATING
  else if walkingActive then .WALKING
  else .IDLE

/-- Line 148: 20-second listen window for high severity, 30 otherwise. -/
def emergencyListenWindow (sev : EmergencySeverity) : Nat :=
  if sev = .high then 20 else 30

/-- Line 181: high severity allows 1 attempt, low/medium allow 2. -/
def emergencyMaxAttempts (sev : EmergencySeverity) : Nat :=
  if sev = .high then 1 else 2

/-- `triggerEmergencyAction` (lines 192-204): alert sound, spoken alert, and
the terminal `EMERGENCY_ACTING` state. -/
def emergencyActionEvents : List EmEvent :=
  [.playedSound "warning",
   .spoke "Emergency help has been contacted. Sending your location now." true]

/-- An outcome counted as a no-response by the dialog: a listen rejection,
silence (whitespace-only transcript), or an ambiguous reply. -/
def isNoResponse : ListenOutcome → Bool
  | .failure => true
  | .result s => trimmedEmpty s || classifyReply s == .ambiguous

/-- `performEmergencyVerification` together with `handleNoResponse`
(App.tsx lines 143-190).  `replies n` is the outcome of the listen of attempt
`n`; `fuel` bounds the recursion (the entry point passes 2, which the attempt
bound `emergencyMaxAttempts ≤ 2` never exhausts).  Returns the event trace and
the app state the dialog ends in. -/
def verificationLoop (sev : EmergencySeverity) (navigating walkingActive : Bool)
    (replies : Nat → ListenOutcome) (attempt : Nat) : Nat → List EmEvent × AppState
  | 0 => ([], .EMERGENCY_CHECK)
  | fuel + 1 =>
    let listenEv := EmEvent.listened (emergencyListenWindow sev)
    let noResp : List EmEvent × AppState :=
      if attempt < emergencyMaxAttempts sev then
        let rest := verificationLoop sev navigating walkingActive replies (attempt + 1) fuel
        (listenEv ::
          .spoke "I didn\x27t hear you. Please say \x27I\x27m okay\x27 if you are safe." true ::
          rest.1, rest.2)
      else
        (listenEv :: emergencyActionEvents, .EMERGENCY_ACTING)
    match replies attempt with
    | .failure => noResp
    | .result response =>
      if trimmedEmpty response then noResp
      else
        match classifyReply response with
        | .safe =>
            ([listenEv, .spoke "I\x27m glad you are safe. Resuming." false],
             restoreMode navigating walkingActive)
        | .danger => (listenEv :: emergencyActionEvents, .EMERGENCY_ACTING)
        | .ambiguous => noResp

/-- `triggerEmergencyCheck` (lines 127-141): cancel speech, speak the initial
verification prompt, then run the verification dialog starting at attempt 1. -/
def triggerEmergencyCheck (sev : EmergencySeverity) (navigating walkingActive : Bool)
    (replies : Nat → ListenOutcome) : List EmEvent × AppState :=
  let r := verificationLoop sev navigating walkingActive replies 1 2
  (.stoppedSpeaking :: .spoke "It sounds like something is wrong. Are you okay?" true :: r.1,
   r.2)

/-- Unfolding lemma: when the listen of attempt `attempt` counts as a
no-response, the dialog takes the `handleNoResponse` branch. -/
lemma verificationLoop_noResponse (sev : EmergencySeverity)
    (navigating walkingActive : Bool) (replies : Nat → ListenOutcome)
    (attempt fuel : Nat) (h : isNoResponse (replies attempt) = true) :
    verificationLoop sev navigating walkingActive replies attempt (fuel + 1) =
      (if attempt < emergencyMaxAttempts sev then
        (EmEvent.listened (emergencyListenWindow sev) ::
          EmEvent.spoke "I didn\x27t hear you. Please say \x27I\x27m okay\x27 if you are safe." true ::
          (verificationLoop sev navigating walkingActive replies (attempt + 1) fuel).1,
         (verificationLoop sev navigating walkingActive replies (attempt + 1) fuel).2)
      else
        (EmEvent.listened (emergencyListenWindow sev) :: emergencyActionEvents,
         .EMERGENCY_ACTING)) := by
  cases hr : replies attempt with
  | failure => simp [verificationLoop, hr]
  | result s =>
    rw [hr] at h
    simp only [isNoResponse, Bool.or_eq_true, beq_iff_eq] at h
    rcases h with h | h
    · simp [verificationLoop, hr, h]
    · by_cases ht : trimmedEmpty s
      · simp [verificationLoop, hr, ht]
      · simp [verificationLoop, hr, ht, h]

/-- Claim C4: in the emergency verification protocol, severity high allows
exactly 1 verification attempt with a 20-second listen window before escalating
to EmergencyActing, while severity low or medium allows exactly 2 attempts with
a 30-second listen window each, each attempt preceded by a (re-)prompt; a
listen failure, silence, and an ambiguous reply all count as no-response for
attempt counting. -/
theorem c4_verification_attempts (replies : Nat → ListenOutcome)
    (h : ∀ n, isNoResponse (replies n) = true) :
    (∀ navigating walkingActive : Bool,
      triggerEmergencyCheck .high navigating walkingActive replies =
        ([.stoppedSpeaking,
          .spoke "It sounds like something is wrong. Are you okay?" true,
          .listened 20,
          .playedSound "warning",
          .spoke "Emergency help has been contacted. Sending your location now." true],
         .EMERGENCY_ACTING)) ∧
    (∀ sev : EmergencySeverity, sev = .low ∨ sev = .medium →
      ∀ navigating walkingActive : Bool,
      triggerEmergencyCheck sev navigating walkingActive replies =
        ([.stoppedSpeaking,
          .spoke "It sounds like something is wrong. Are you okay?" true,
          .listened 30,
          .spoke "I didn\x27t hear you. Please say \x27I\x27m okay\x27 if you are safe." true,
          .listened 30,
          .playedSound "warning",
          .spoke "Emergency help has been contacted. Sending your location now." true],
         .EMERGENCY_ACTING)) := by
  constructor
  · intro navigating walkingActive
    rw [triggerEmergencyCheck,
      verificationLoop_noResponse _ _ _ _ _ _ (h 1)]
    simp [emergencyMaxAttempts, emergencyListenWindow, emergencyActionEvents]
  · rintro sev (rfl | rfl) navigating walkingActive <;>
    · rw [triggerEmergencyCheck,
        verificationLoop_noResponse _ _ _ _ _ _ (h 1),
        verificationLoop_noResponse _ _ _ _ _ _ (h 2)]
      simp [emergencyMaxAttempts, emergencyListenWindow, emergencyActionEvents]

/-- Concrete no-response reply schedule for the C4 witness: a rejected listen
on attempt 1 and an ambiguous reply on every later attempt. -/
def c4WitnessReplies : Nat → ListenOutcome :=
  fun n => if n = 1 then .failure else .result "uncertain mumble"

theorem c4_witness :
    (triggerEmergencyCheck .high false true c4WitnessReplies).2 =
      AppState.EMERGENCY_ACTING ∧
    (triggerEmergencyCheck .low false true c4WitnessReplies).1 =
      [.stoppedSpeaking,
       .spoke "It sounds like something is wrong. Are you okay?" true,
       .listened 30,
       .spoke "I didn\x27t hear you. Please say \x27I\x27m okay\x27 if you are safe." true,
       .listened 30,
       .playedSound "warning",
       .spoke "Emergency help has been contacted. Sending your location now." true] := by
  have h : ∀ n, isNoResponse (c4WitnessReplies n) = true := by
    intro n
    by_cases hn : n = 1 <;> simp only [c4WitnessReplies, hn, if_true, if_false] <;> decide
  have hc := c4_verification_attempts c4WitnessReplies h
  exact ⟨by rw [hc.1 false true], by rw [hc.2 .low (Or.inl rfl) false true]⟩

/-- Claim C5: during an EmergencyCheck, a verification reply exactly equal to
"I\x27m okay" is classified safe and restores the mode that was active before
the check (Navigating if navigating, else Walking if the walking toggle is
active), and a reply exactly equal to "help" transitions to EmergencyActing. -/
theorem c5_exact_replies (sev : EmergencySeverity) (navigating walkingActive : Bool) :
    (triggerEmergencyCheck sev navigating walkingActive (fun _ => .result "I\x27m okay")).2 =
      (if navigating then AppState.NAVIGATING
       else if walkingActive then AppState.WALKING else AppState.IDLE) ∧
    (triggerEmergencyCheck sev navigating walkingActive (fun _ => .result "help")).2 =
      AppState.EMERGENCY_ACTING := by
  cases sev <;> cases navigating <;> cases walkingActive <;>
    exact ⟨by decide, by decide⟩

/-- Claim C10: emergency reply classification tests affirmative substrings
before distress substrings, so a reply whose lowercased text contains both an
affirmative and a distress token is classified safe and the check resolves by
restoring the prior mode, without escalation to EmergencyActing. -/
theorem c10_affirmative_tested_first (r : String) (sev : EmergencySeverity)
    (navigating walkingActive : Bool) (replies : Nat → ListenOutcome)
    (hrep : replies 1 = .result r)
    (haff : affirmativeTokens.any (fun t => strIncludes (jsToLower r) t) = true)
    (hdis : distressTokens.any (fun t => strIncludes (jsToLower r) t) = true)
    (hne : trimmedEmpty r = false) :
    classifyReply r = .safe ∧
    (triggerEmergencyCheck sev navigating walkingActive replies).2 =
      restoreMode navigating walkingActive ∧
    restoreMode navigating walkingActive ≠ AppState.EMERGENCY_ACTING := by
  have hcls : classifyReply r = .safe := by simp [classifyReply, haff]
  refine ⟨hcls, ?_, ?_⟩
  · simp [triggerEmergencyCheck, verificationLoop, hrep, hne, hcls]
  · unfold restoreMode
    split_ifs <;> simp

theorem c10_witness :
    classifyReply "no, I\x27m not okay" = ReplyClass.safe ∧
    (triggerEmergencyCheck .medium false true
        (fun _ => .result "no, I\x27m not okay")).2 = restoreMode false true ∧
    restoreMode false true ≠ AppState.EMERGENCY_ACTING :=
  c10_affirmative_tested_first "no, I\x27m not okay" .medium false true
    (fun _ => .result "no, I\x27m not okay") rfl (by decide) (by decide) (by decide)

/-! ## Perception loop (`runWalkingLoop`, App.tsx lines 266-350)

One cycle of the loop is embedded as a pure function.  The environment
supplies the results of the two camera capture attempts, the hazard analysis
outcome (`Except` models a rejected promise, caught by the catch block), the
value of `appStateRef.current` at the re-check of line 311 and at the finally
block, the speech-channel flag, and the randomness.  The state record carries
the ref values read at the top of the cycle. -/

/-- Companion phrase table (App.tsx lines 13-22). -/
def COMPANION_PHRASES : List String :=
  ["I\x27m walking right here with you.",
   "You\x27re doing great, stay confident.",
   "I\x27m watching out for you.",
   "Everything looks good, keep going.",
   "I\x27m here, just let me know if you need anything.",
   "Nice and steady.",
   "You are doing wonderful.",
   "The path ahead seems clear."]

/-- Observable events of one perception-loop cycle, in program order. -/
inductive LoopEvent where
  | captureAttempt
  | delayed (ms : Nat)
  | analyzeAttempt
  | triggeredEmergency (sev : EmergencySeverity)
  | stoppedSpeaking
  | spoke (text : String) (priority : Bool)
  deriving DecidableEq, Repr

/-- Ref values read by a cycle of `runWalkingLoop` at its start. -/
structure LoopState where
  appState : AppState
  isWalkingFeatureActive : Bool
  isNavigating : Bool
  isCompanionMode : Bool
  isAnalyzingFrame : Bool
  lastCompanionMsg : Nat
  deriving DecidableEq, Repr

/-- External-world inputs of one cycle.  `capture1`/`capture2` are the results
of the first and (if needed) retried frame capture; `analyzeR` is the hazard
analysis (`Except.error` = rejected promise); `stateAfterAnalyze` is
`appStateRef.current` at the line-311 re-check, `stateAtFinally` its value in
the finally block; `clearConfirmRoll` models `Math.random() > 0.95` and
`phraseRoll` the random phrase index. -/
structure LoopEnv where
  now : Nat
  capture1 : Option String
  capture2 : Option String
  analyzeR : Except Unit (Option WalkingHazard)
  stateAfterAnalyze : AppState
  stateAtFinally : AppState
  isSpeaking : Bool
  clearConfirmRoll : Bool
  phraseRoll : Nat

/-- Result of one cycle: the effect trace, the guard value after the finally
block, whether the finally block rescheduled the next cycle, and the companion
timer after the cycle. -/
structure CycleResult where
  events : List LoopEvent
  guardHeldAfter : Bool
  rescheduled : Bool
  lastCompanionMsg : Nat
  deriving DecidableEq, Repr

/-- The truthiness test of line 306:
`hazard && hazard.hazard_type && hazard.category === 'fall'`. -/
def fallShortCircuit : Option WalkingHazard → Bool
  | Option.none => false
  | some h => h.hazard_type != "" && h.category == .fall

/-- The truthiness test of line 312:
`hazard && hazard.hazard_type !== 'none' && hazard.message`. -/
def realHazard : Option WalkingHazard → Bool
  | Option.none => false
  | some h => h.hazard_type != "none" && h.message != ""

/-- Shared tail of the cycle: the finally block (lines 341-349) releases the
guard and reschedules when the app state ref still reads Walking/Navigating. -/
def finishCycle (st : LoopState) (env : LoopEnv) (events : List LoopEvent)
    (lastMsg : Nat) : CycleResult :=
  { events := events
    guardHeldAfter := false
    rescheduled :=
      (env.stateAtFinally == .WALKING || env.stateAtFinally == .NAVIGATING) &&
        env.stateAtFinally != .LISTENING
    lastCompanionMsg := lastMsg }

/-- A cycle that returned before acquiring the guard (lines 274-282): the
try/finally was never entered, so nothing is rescheduled and the guard keeps
its entry value. -/
def earlyExit (st : LoopState) : CycleResult :=
  { events := []
    guardHeldAfter := st.isAnalyzingFrame
    rescheduled := false
    lastCompanionMsg := st.lastCompanionMsg }

/-- The companion-mode / path-clear logic of the non-hazard branch
(App.tsx lines 323-337). -/
def companionStep (st : LoopState) (env : LoopEnv) (evs : List LoopEvent) : CycleResult :=
  if st.isCompanionMode && !env.isSpeaking then
    if env.now - st.lastCompanionMsg > 15000 then
      let phrase := COMPANION_PHRASES.getD (env.phraseRoll % COMPANION_PHRASES.length) ""
      finishCycle st env (evs ++ [.spoke phrase false]) env.now
    else
      finishCycle st env evs st.lastCompanionMsg
  else if !st.isCompanionMode && env.clearConfirmRoll && !env.isSpeaking then
    finishCycle st env (evs ++ [.spoke "Path clear." false]) st.lastCompanionMsg
  else
    finishCycle st env evs st.lastCompanionMsg

/-- The body of a cycle after the guard was acquired and the capture attempts
ran (App.tsx lines 295-338): `capEvents` are the capture events already
emitted, `frame` the frame obtained (if any). -/
def cycleBody (st : LoopState) (env : LoopEnv) (capEvents : List LoopEvent)
    (frame : Option String) : CycleResult :=
  match frame with
  | Option.none => finishCycle st env capEvents st.lastCompanionMsg
  | some _ =>
    let evs := capEvents ++ [LoopEvent.analyzeAttempt]
    match env.analyzeR with
    | .error _ => finishCycle st env evs st.lastCompanionMsg
    | .ok hazard =>
      if fallShortCircuit hazard then
        finishCycle st env (evs ++ [.triggeredEmergency .high]) st.lastCompanionMsg
      else if env.stateAfterAnalyze == .WALKING || env.stateAfterAnalyze == .NAVIGATING then
        if realHazard hazard then
          let msg := (hazard.map WalkingHazard.message).getD ""
          finishCycle st env (evs ++ [.stoppedSpeaking, .spoke msg true]) env.now
        else
          companionStep st env evs
      else
        finishCycle st env evs st.lastCompanionMsg

/-- One cycle of `runWalkingLoop` (App.tsx lines 266-350). -/
def runWalkingLoop (st : LoopState) (env : LoopEnv) : CycleResult :=
  let validState := st.appState == .WALKING || st.appState == .NAVIGATING
  let featuresActive := st.isWalkingFeatureActive || st.isNavigating
  if st.appState == .LISTENING || st.appState == .PROCESSING_INTENT ||
      st.appState == .EMERGENCY_CHECK || st.appState == .EMERGENCY_ACTING then
    earlyExit st
  else if !(validState && featuresActive) then
    earlyExit st
  else if st.isAnalyzingFrame then
    earlyExit st
  else
    match env.capture1 with
    | some f => cycleBody st env [LoopEvent.captureAttempt] (some f)
    | Option.none =>
      cycleBody st env
        [LoopEvent.captureAttempt, LoopEvent.delayed 100, LoopEvent.captureAttempt]
        env.capture2

/-- Whether an event is a camera capture call. -/
def isCaptureEvent : LoopEvent → Bool
  | .captureAttempt => true
  | _ => false

/-- Whether an event is a hazard-analysis call. -/
def isAnalyzeEvent : LoopEvent → Bool
  | .analyzeAttempt => true
  | _ => false

/-- Whether an event is a spoken utterance. -/
def isSpokenEvent : LoopEvent → Bool
  | .spoke _ _ => true
  | _ => false

/-- Whether an event is a priority spoken utterance. -/
def isPrioritySpokenEvent : LoopEvent → Bool
  | .spoke _ priority => priority
  | _ => false

/-- Number of camera capture calls a cycle made. -/
def captureCount (r : CycleResult) : Nat :=
  r.events.countP fun e => isCaptureEvent e

/-- Number of hazard-analysis calls a cycle made. -/
def analyzeCount (r : CycleResult) : Nat :=
  r.events.countP fun e => isAnalyzeEvent e

/-- The companion branch never cancels an utterance and never speaks with
priority: its events are the input events plus at most one non-priority
phrase. -/
lemma companionStep_no_priority_speech (st : LoopState) (env : LoopEnv)
    (evs : List LoopEvent)
    (h1 : LoopEvent.stoppedSpeaking ∉ evs)
    (h2 : ∀ t, LoopEvent.spoke t true ∉ evs) :
    LoopEvent.stoppedSpeaking ∉ (companionStep st env evs).events ∧
    ∀ t, LoopEvent.spoke t true ∉ (companionStep st env evs).events := by
  unfold companionStep
  split_ifs <;>
    simp_all [finishCycle]

/-- The companion branch leaves the capture and analysis counts of its input
events unchanged. -/
lemma companionStep_counts (st : LoopState) (env : LoopEnv) (evs : List LoopEvent) :
    (companionStep st env evs).events.countP (fun e => isAnalyzeEvent e) =
      evs.countP (fun e => isAnalyzeEvent e) ∧
    (companionStep st env evs).events.countP (fun e => isCaptureEvent e) =
      evs.countP (fun e => isCaptureEvent e) := by
  unfold companionStep
  split_ifs <;>
    simp [finishCycle, List.countP_append, isAnalyzeEvent, isCaptureEvent, List.countP_cons]

/-- Concrete cycle state for the C3 counterexample: walking mode active, no
cycle in flight. -/
def c3State : LoopState :=
  { appState := .WALKING
    isWalkingFeatureActive := true
    isNavigating := false
    isCompanionMode := false
    isAnalyzingFrame := false
    lastCompanionMsg := 0 }

/-- The hazard returned by the analysis in the C3 counterexample: category
`fall`, but with an empty `hazard_type` string. -/
def c3FallHazard : WalkingHazard :=
  { hazard_type := ""
    category := .fall
    description := "person on the ground"
    direction := "center"
    distance := "near"
    severity := .high
    message := "A fall was detected."
    confidence := 90 }

/-- Environment for the C3 counterexample: first capture succeeds, analysis
returns `c3FallHazard`, app state stays Walking. -/
def c3Env : LoopEnv :=
  { now := 20000
    capture1 := some "frame"
    capture2 := Option.none
    analyzeR := .ok (some c3FallHazard)
    stateAfterAnalyze := .WALKING
    stateAtFinally := .WALKING
    isSpeaking := false
    clearConfirmRoll := false
    phraseRoll := 0 }

/-- Counterexample to claim C3 as stated: the analysis returns a hazard whose
category is `fall`, yet the cycle does not invoke the emergency protocol — the
line-306 guard also requires a truthy (non-empty) `hazard_type` — and instead
performs the normal reaction, speaking the hazard message with priority. -/
theorem c3_counterexample :
    (some c3FallHazard).map WalkingHazard.category = some HazardCategory.fall ∧
    LoopEvent.triggeredEmergency .high ∉ (runWalkingLoop c3State c3Env).events ∧
    (runWalkingLoop c3State c3Env).events =
      [.captureAttempt, .analyzeAttempt, .stoppedSpeaking,
       .spoke "A fall was detected." true] := by
  refine ⟨rfl, by decide, by decide⟩

/-- Claim C3 (amended): for every perception-loop cycle whose hazard analysis
returns a hazard with category `fall` and a non-empty `hazard_type`, the loop
invokes the emergency escalation protocol at high severity and performs none
of the normal reactions of that cycle — no utterance cancel and no speech of
any kind (hazard message, companion filler, or clear confirmation) —
regardless of the hazard message field. -/
theorem c3_fall_short_circuit (st : LoopState) (env : LoopEnv) (h : WalkingHazard)
    (hstate : st.appState = .WALKING ∨ st.appState = .NAVIGATING)
    (hguard : st.isAnalyzingFrame = false)
    (hfeat : (st.isWalkingFeatureActive || st.isNavigating) = true)
    (hframe : env.capture1 ≠ Option.none ∨ env.capture2 ≠ Option.none)
    (hana : env.analyzeR = .ok (some h))
    (hfall : h.category = .fall)
    (htype : h.hazard_type ≠ "") :
    LoopEvent.triggeredEmergency .high ∈ (runWalkingLoop st env).events ∧
    ∀ e ∈ (runWalkingLoop st env).events,
      isSpokenEvent e = false ∧ e ≠ .stoppedSpeaking := by
  have hfsc : fallShortCircuit (some h) = true := by
    simp [fallShortCircuit, htype, hfall]
  simp only [Bool.or_eq_true] at hfeat
  rcases hc1 : env.capture1 with _ | f
  · rcases hframe with hf | hf
    · exact absurd hc1 hf
    · rcases hc2 : env.capture2 with _ | g
      · exact absurd hc2 hf
      · rcases hstate with hs | hs <;> rcases hfeat with hft | hft <;>
          simp_all [runWalkingLoop, cycleBody, finishCycle, isSpokenEvent]
  · rcases hstate with hs | hs <;> rcases hfeat with hft | hft <;>
      simp_all [runWalkingLoop, cycleBody, finishCycle, isSpokenEvent]

theorem c3_witness :
    (some c3FallHazard).map WalkingHazard.category = some HazardCategory.fall ∧
    LoopEvent.triggeredEmergency .high ∈
      (runWalkingLoop c3State
        { c3Env with analyzeR := .ok (some { c3FallHazard with hazard_type := "fall" }) }).events := by
  refine ⟨rfl, ?_⟩
  exact (c3_fall_short_circuit c3State
    { c3Env with analyzeR := .ok (some { c3FallHazard with hazard_type := "fall" }) }
    { c3FallHazard with hazard_type := "fall" }
    (Or.inl rfl) rfl rfl (Or.inl (by decide)) rfl rfl (by decide)).1

/-- Hazard for the C7 counterexample: category `none`, non-empty
`hazard_type`, non-empty message. -/
def c7Hazard : WalkingHazard :=
  { hazard_type := "overhanging branch"
    category := HazardCategory.none
    description := "low branch"
    direction := "center"
    distance := "near"
    severity := .medium
    message := "Watch out, a branch ahead."
    confidence := 80 }

/-- Environment for the C7 counterexample. -/
def c7Env : LoopEnv :=
  { now := 20000
    capture1 := some "frame"
    capture2 := Option.none
    analyzeR := .ok (some c7Hazard)
    stateAfterAnalyze := .WALKING
    stateAtFinally := .WALKING
    isSpeaking := false
    clearConfirmRoll := false
    phraseRoll := 0 }

/-- Counterexample to claim C7 as stated: the line-312 guard tests the free
string `hazard_type`, not the `category` field, so a hazard whose category is
`none` but whose `hazard_type` differs from the string "none" does trigger the
full reaction (utterance cancel, priority speech of the message, companion
timer reset) — the claim says it triggers none of these actions. -/
theorem c7_counterexample :
    (some c7Hazard).map WalkingHazard.category = some HazardCategory.none ∧
    (runWalkingLoop c3State c7Env).events =
      [.captureAttempt, .analyzeAttempt, .stoppedSpeaking,
       .spoke "Watch out, a branch ahead." true] ∧
    (runWalkingLoop c3State c7Env).lastCompanionMsg = c7Env.now := by
  refine ⟨rfl, by decide, by decide⟩

/-- Under the entry conditions (active mode, features on, guard free), a cycle
acquires the guard and proceeds to the capture attempts. -/
lemma runWalkingLoop_entry (st : LoopState) (env : LoopEnv)
    (hstate : st.appState = .WALKING ∨ st.appState = .NAVIGATING)
    (hguard : st.isAnalyzingFrame = false)
    (hfeat : (st.isWalkingFeatureActive || st.isNavigating) = true) :
    runWalkingLoop st env =
      match env.capture1 with
      | some f => cycleBody st env [LoopEvent.captureAttempt] (some f)
      | Option.none =>
        cycleBody st env
          [LoopEvent.captureAttempt, LoopEvent.delayed 100, LoopEvent.captureAttempt]
          env.capture2 := by
  simp only [Bool.or_eq_true] at hfeat
  rcases hstate with hs | hs <;> rcases hfeat with hft | hft <;>
    simp_all [runWalkingLoop]

/-- When the analysis returned a real hazard (line-312 sense) and the fall
short-circuit did not fire, the cycle reacts: utterance cancel, priority
speech of the message, companion timer reset. -/
lemma cycleBody_realHazard (st : LoopState) (env : LoopEnv)
    (capEvents : List LoopEvent) (f : String) (h : WalkingHazard)
    (hana : env.analyzeR = .ok (some h))
    (hnofall : fallShortCircuit (some h) = false)
    (hmid : env.stateAfterAnalyze = .WALKING ∨ env.stateAfterAnalyze = .NAVIGATING)
    (ht : h.hazard_type ≠ "none") (hm : h.message ≠ "") :
    cycleBody st env capEvents (some f) =
      finishCycle st env
        (capEvents ++ [LoopEvent.analyzeAttempt, .stoppedSpeaking, .spoke h.message true])
        env.now := by
  have hrh : realHazard (some h) = true := by
    simp [realHazard, ht, hm]
  rcases hmid with hm1 | hm1 <;>
    simp [cycleBody, hana, hnofall, hrh, hm1]

/-- When the analysis returned no real hazard (line-312 sense) and the fall
short-circuit did not fire, the cycle falls through to the companion branch. -/
lemma cycleBody_noHazard (st : LoopState) (env : LoopEnv)
    (capEvents : List LoopEvent) (f : String) (hz : Option WalkingHazard)
    (hana : env.analyzeR = .ok hz)
    (hnofall : fallShortCircuit hz = false)
    (hmid : env.stateAfterAnalyze = .WALKING ∨ env.stateAfterAnalyze = .NAVIGATING)
    (hrh : realHazard hz = false) :
    cycleBody st env capEvents (some f) =
      companionStep st env (capEvents ++ [LoopEvent.analyzeAttempt]) := by
  rcases hmid with hm1 | hm1 <;>
    simp [cycleBody, hana, hnofall, hrh, hm1]

/-- Claim C7 (amended): for every perception-loop cycle (outside the fall
short-circuit) in which the returned hazard has `hazard_type` not equal to the
string "none" and a non-empty message, the loop cancels the current utterance,
speaks the hazard message with priority, and resets the companion-phrase timer
to the current time; a null hazard, or one whose `hazard_type` equals "none"
or whose message is empty, triggers no utterance cancel and no priority
speech. -/
theorem c7_hazard_type_gates_reaction (st : LoopState) (env : LoopEnv)
    (hz : Option WalkingHazard)
    (hstate : st.appState = .WALKING ∨ st.appState = .NAVIGATING)
    (hguard : st.isAnalyzingFrame = false)
    (hfeat : (st.isWalkingFeatureActive || st.isNavigating) = true)
    (hframe : env.capture1 ≠ Option.none ∨ env.capture2 ≠ Option.none)
    (hana : env.analyzeR = .ok hz)
    (hnofall : fallShortCircuit hz = false)
    (hmid : env.stateAfterAnalyze = .WALKING ∨ env.stateAfterAnalyze = .NAVIGATING) :
    (∀ h, hz = some h → h.hazard_type ≠ "none" → h.message ≠ "" →
      (∃ pre, (runWalkingLoop st env).events =
        pre ++ [.stoppedSpeaking, .spoke h.message true]) ∧
      (runWalkingLoop st env).lastCompanionMsg = env.now) ∧
    (realHazard hz = false →
      LoopEvent.stoppedSpeaking ∉ (runWalkingLoop st env).events ∧
      ∀ t, LoopEvent.spoke t true ∉ (runWalkingLoop st env).events) := by
  have hrw := runWalkingLoop_entry st env hstate hguard hfeat
  constructor
  · intro h hh ht hm
    subst hh
    rcases hc1 : env.capture1 with _ | f
    · rcases hframe with hf | hf
      · exact absurd hc1 hf
      · rcases hc2 : env.capture2 with _ | g
        · exact absurd hc2 hf
        · rw [hrw]
          simp only [hc1, hc2]
          rw [cycleBody_realHazard st env _ g h hana hnofall hmid ht hm]
          exact ⟨⟨[LoopEvent.captureAttempt, LoopEvent.delayed 100,
            LoopEvent.captureAttempt, LoopEvent.analyzeAttempt], by simp [finishCycle]⟩, rfl⟩
    · rw [hrw]
      simp only [hc1]
      rw [cycleBody_realHazard st env _ f h hana hnofall hmid ht hm]
      exact ⟨⟨[LoopEvent.captureAttempt, LoopEvent.analyzeAttempt],
        by simp [finishCycle]⟩, rfl⟩
  · intro hrh
    rcases hc1 : env.capture1 with _ | f
    · rcases hc2 : env.capture2 with _ | g
      · rw [hrw]
        simp only [hc1, hc2]
        simp [cycleBody, finishCycle]
      · rw [hrw]
        simp only [hc1, hc2]
        rw [cycleBody_noHazard st env _ g hz hana hnofall hmid hrh]
        exact companionStep_no_priority_speech st env _ (by simp) (by simp)
    · rw [hrw]
      simp only [hc1]
      rw [cycleBody_noHazard st env _ f hz hana hnofall hmid hrh]
      exact companionStep_no_priority_speech st env _ (by simp) (by simp)

theorem c7_witness :
    (∃ pre, (runWalkingLoop c3State c7Env).events =
      pre ++ [.stoppedSpeaking, .spoke "Watch out, a branch ahead." true]) ∧
    (runWalkingLoop c3State c7Env).lastCompanionMsg = c7Env.now :=
  (c7_hazard_type_gates_reaction c3State c7Env (some c7Hazard)
      (Or.inl rfl) rfl rfl (Or.inl (by decide)) rfl (by decide)
      (Or.inl rfl)).1 c7Hazard rfl (by decide) (by decide)

/-- The companion branch appends at most a non-priority phrase to its input
events. -/
lemma companionStep_events_shape (st : LoopState) (env : LoopEnv)
    (evs : List LoopEvent) :
    ∃ suffix, (companionStep st env evs).events = evs ++ suffix := by
  unfold companionStep
  split_ifs <;>
    first
      | exact ⟨_, rfl⟩
      | exact ⟨[], (List.append_nil evs).symm⟩

/-- The cycle body only appends events after the capture events. -/
lemma cycleBody_events_shape (st : LoopState) (env : LoopEnv)
    (capEvents : List LoopEvent) (frame : Option String) :
    ∃ suffix, (cycleBody st env capEvents frame).events = capEvents ++ suffix := by
  unfold cycleBody
  cases frame with
  | none => exact ⟨[], (List.append_nil capEvents).symm⟩
  | some f =>
    cases env.analyzeR with
    | error err => exact ⟨[LoopEvent.analyzeAttempt], rfl⟩
    | ok hazard =>
      cases hf : fallShortCircuit hazard with
      | true =>
        refine ⟨[LoopEvent.analyzeAttempt, LoopEvent.triggeredEmergency .high], ?_⟩
        simp [hf, finishCycle]
      | false =>
        cases hm : (env.stateAfterAnalyze == AppState.WALKING ||
            env.stateAfterAnalyze == AppState.NAVIGATING) with
        | false =>
          refine ⟨[LoopEvent.analyzeAttempt], ?_⟩
          simp [hf, hm, finishCycle]
        | true =>
          cases hr : realHazard hazard with
          | true =>
            refine ⟨[LoopEvent.analyzeAttempt, LoopEvent.stoppedSpeaking,
              LoopEvent.spoke ((Option.map WalkingHazard.message hazard).getD "") true], ?_⟩
            simp [hf, hm, hr, finishCycle]
          | false =>
            obtain ⟨suffix, hs⟩ :=
              companionStep_events_shape st env (capEvents ++ [LoopEvent.analyzeAttempt])
            refine ⟨[LoopEvent.analyzeAttempt] ++ suffix, ?_⟩
            simp only [hf, hm, hr, Bool.false_eq_true, if_false, if_true]
            rw [hs, List.append_assoc]

/-- The cycle body performs no further camera captures: the capture count of
its result equals that of the capture events it was given. -/
lemma cycleBody_capture_count (st : LoopState) (env : LoopEnv)
    (capEvents : List LoopEvent) (frame : Option String) :
    (cycleBody st env capEvents frame).events.countP (fun e => isCaptureEvent e) =
      capEvents.countP (fun e => isCaptureEvent e) := by
  unfold cycleBody
  cases frame with
  | none => simp [finishCycle]
  | some f =>
    cases env.analyzeR with
    | error err => simp [finishCycle, List.countP_append, List.countP_cons, isCaptureEvent]
    | ok hazard =>
      cases hf : fallShortCircuit hazard with
      | true => simp [hf, finishCycle, List.countP_append, List.countP_cons, isCaptureEvent]
      | false =>
        cases hm : (env.stateAfterAnalyze == AppState.WALKING ||
            env.stateAfterAnalyze == AppState.NAVIGATING) with
        | false =>
          simp [hf, hm, finishCycle, List.countP_append, List.countP_cons, isCaptureEvent]
        | true =>
          cases hr : realHazard hazard with
          | true =>
            simp [hf, hm, hr, finishCycle, List.countP_append, List.countP_cons, isCaptureEvent]
          | false =>
            simp only [hf, hm, hr, Bool.false_eq_true, if_false, if_true]
            rw [(companionStep_counts st env (capEvents ++ [LoopEvent.analyzeAttempt])).2]
            simp [List.countP_append, List.countP_cons, isCaptureEvent]

/-- The cycle body calls hazard analysis exactly once when it has a frame and
never otherwise. -/
lemma cycleBody_analyze_count (st : LoopState) (env : LoopEnv)
    (capEvents : List LoopEvent) (frame : Option String) :
    (cycleBody st env capEvents frame).events.countP (fun e => isAnalyzeEvent e) =
      capEvents.countP (fun e => isAnalyzeEvent e) +
        (match frame with | some _ => 1 | Option.none => 0) := by
  unfold cycleBody
  cases frame with
  | none => simp [finishCycle]
  | some f =>
    cases env.analyzeR with
    | error err => simp [finishCycle, List.countP_append, List.countP_cons, isAnalyzeEvent]
    | ok hazard =>
      cases hf : fallShortCircuit hazard with
      | true => simp [hf, finishCycle, List.countP_append, List.countP_cons, isAnalyzeEvent]
      | false =>
        cases hm : (env.stateAfterAnalyze == AppState.WALKING ||
            env.stateAfterAnalyze == AppState.NAVIGATING) with
        | false =>
          simp [hf, hm, finishCycle, List.countP_append, List.countP_cons, isAnalyzeEvent]
        | true =>
          cases hr : realHazard hazard with
          | true =>
            simp [hf, hm, hr, finishCycle, List.countP_append, List.countP_cons, isAnalyzeEvent]
          | false =>
            simp only [hf, hm, hr, Bool.false_eq_true, if_false, if_true]
            rw [(companionStep_counts st env (capEvents ++ [LoopEvent.analyzeAttempt])).1]
            simp [List.countP_append, List.countP_cons, isAnalyzeEvent]

/-- Claim C9: for every perception-loop cycle, a failed frame capture is
retried exactly once after a short delay; if the retry also fails, the cycle
is skipped with the in-flight guard released, the next cycle rescheduled, and
no error spoken to the user; hazard analysis is called at most once per cycle
(never retried). -/
theorem c9_capture_retry_once (st : LoopState) (env : LoopEnv)
    (hstate : st.appState = .WALKING ∨ st.appState = .NAVIGATING)
    (hguard : st.isAnalyzingFrame = false)
    (hfeat : (st.isWalkingFeatureActive || st.isNavigating) = true) :
    (∀ f, env.capture1 = some f → captureCount (runWalkingLoop st env) = 1) ∧
    (env.capture1 = Option.none →
      captureCount (runWalkingLoop st env) = 2 ∧
      LoopEvent.delayed 100 ∈ (runWalkingLoop st env).events) ∧
    (env.capture1 = Option.none → env.capture2 = Option.none →
      analyzeCount (runWalkingLoop st env) = 0 ∧
      (runWalkingLoop st env).guardHeldAfter = false ∧
      (env.stateAtFinally = st.appState → (runWalkingLoop st env).rescheduled = true) ∧
      ∀ e ∈ (runWalkingLoop st env).events, isSpokenEvent e = false) ∧
    analyzeCount (runWalkingLoop st env) ≤ 1 := by
  have hrw := runWalkingLoop_entry st env hstate hguard hfeat
  refine ⟨?_, ?_, ?_, ?_⟩
  · intro f hc1
    rw [captureCount, hrw]
    simp only [hc1]
    rw [cycleBody_capture_count]
    simp [List.countP_cons, isCaptureEvent]
  · intro hc1
    rw [captureCount, hrw]
    simp only [hc1]
    constructor
    · rw [cycleBody_capture_count]
      simp [List.countP_cons, isCaptureEvent]
    · obtain ⟨suffix, hs⟩ := cycleBody_events_shape st env
        [LoopEvent.captureAttempt, LoopEvent.delayed 100, LoopEvent.captureAttempt]
        env.capture2
      rw [hs]
      simp
  · intro hc1 hc2
    rw [analyzeCount, hrw]
    simp only [hc1, hc2]
    refine ⟨by simp [cycleBody, finishCycle, isAnalyzeEvent, List.countP_cons], rfl, ?_, ?_⟩
    · intro hfin
      show (cycleBody st env _ Option.none).rescheduled = true
      rcases hstate with hs | hs <;>
        simp [cycleBody, finishCycle, hfin, hs]
    · intro e he
      simp only [cycleBody, finishCycle] at he
      fin_cases he <;> rfl
  · rw [analyzeCount, hrw]
    cases hc1 : env.capture1 with
    | none =>
      rw [cycleBody_analyze_count]
      cases env.capture2 <;> simp [List.countP_cons, isAnalyzeEvent]
    | some f =>
      rw [cycleBody_analyze_count]
      simp [List.countP_cons, isAnalyzeEvent]

/-- Environment for the C9 witness: both captures fail while walking. -/
def c9Env : LoopEnv :=
  { now := 0
    capture1 := Option.none
    capture2 := Option.none
    analyzeR := .ok Option.none
    stateAfterAnalyze := .WALKING
    stateAtFinally := .WALKING
    isSpeaking := false
    clearConfirmRoll := false
    phraseRoll := 0 }

theorem c9_witness :
    captureCount (runWalkingLoop c3State c9Env) = 2 ∧
    LoopEvent.delayed 100 ∈ (runWalkingLoop c3State c9Env).events ∧
    analyzeCount (runWalkingLoop c3State c9Env) = 0 ∧
    (runWalkingLoop c3State c9Env).guardHeldAfter = false ∧
    (runWalkingLoop c3State c9Env).rescheduled = true := by
  have h := c9_capture_retry_once c3State c9Env (Or.inl rfl) rfl rfl
  obtain ⟨h1, h2, h3, h4⟩ := h
  obtain ⟨h21, h22⟩ := h2 rfl
  obtain ⟨h31, h32, h33, h34⟩ := h3 rfl rfl
  exact ⟨h21, h22, h31, h32, h33 rfl⟩

/-! ## Concurrency model of the in-flight guard (claim C6)

The scheduling-level interleaving of the three paths that invoke
`runWalkingLoop` — the self-rescheduling loop / mode-change effect
(`loopEnter`), a running cycle reaching its finally block (`cycleFinish`), and
the watchdog tick (`watchdogFire`, lines 86-95) — is modelled as a transition
system.  `inFlight` counts cycles currently executing between guard
acquisition (line 284) and the finally block (line 342); `guard` is
`isAnalyzingFrameRef`; `lastBeat` is `lastLoopTimeRef`, stamped at every loop
entry (line 268). -/

structure SysState where
  inFlight : Nat
  guard : Bool
  appState : AppState
  featuresActive : Bool
  lastBeat : Nat
  deriving DecidableEq, Repr

inductive SysAction where
  | loopEnter (t : Nat)
  | cycleFinish
  | watchdogFire (t : Nat)
  deriving DecidableEq, Repr

/-- The entry guards of `runWalkingLoop` (lines 270-284): not in a
listening/processing/emergency state, in Walking/Navigating with a feature
toggle on, and the in-flight guard free. -/
def enterAcquires (s : SysState) : Bool :=
  !(s.appState == .LISTENING || s.appState == .PROCESSING_INTENT ||
      s.appState == .EMERGENCY_CHECK || s.appState == .EMERGENCY_ACTING) &&
    ((s.appState == .WALKING || s.appState == .NAVIGATING) && s.featuresActive) &&
    !s.guard

/-- One scheduling step.  `loopEnter` stamps the heartbeat then acquires if
the entry guards pass (an invocation finding the guard held is dropped, lines
281-282).  `cycleFinish` is the finally block: release the guard.
`watchdogFire` (lines 86-95): if the mode is active and the heartbeat is older
than 2000ms, force the guard free and re-invoke the loop. -/
def step (s : SysState) : SysAction → SysState
  | .loopEnter t =>
    let s1 := { s with lastBeat := t }
    if enterAcquires s1 then { s1 with guard := true, inFlight := s1.inFlight + 1 } else s1
  | .cycleFinish =>
    if s.inFlight > 0 then { s with inFlight := s.inFlight - 1, guard := false } else s
  | .watchdogFire t =>
    if (s.appState == .WALKING || s.appState == .NAVIGATING) && t - s.lastBeat > 2000 then
      let s1 := { s with guard := false, lastBeat := t }
      if enterAcquires s1 then { s1 with guard := true, inFlight := s1.inFlight + 1 } else s1
    else s

/-- Execution of a scheduling trace. -/
def sysRun (s : SysState) (acts : List SysAction) : SysState := acts.foldl step s

/-- Initial state: walking mode active, no cycle in flight. -/
def sysInit : SysState :=
  { inFlight := 0, guard := false, appState := .WALKING, featuresActive := true, lastBeat := 0 }

/-- Counterexample to claim C6 as stated: a cycle starts at time 0 and is
still in flight (slow analysis) when the watchdog fires at time 3000; the
watchdog resets the guard (line 91) and restarts the loop (line 92), which
re-acquires the guard, so two capture+analyze cycles are in flight at once. -/
theorem c6_counterexample :
    (sysRun sysInit [.loopEnter 0, .watchdogFire 3000]).inFlight = 2 := by decide

/-- The invariant that holds without the watchdog path: at most one cycle in
flight, and none when the guard is free. -/
def SysInv (s : SysState) : Prop :=
  s.inFlight ≤ 1 ∧ (s.guard = false → s.inFlight = 0)

lemma step_preserves_SysInv (s : SysState) (a : SysAction) (hinv : SysInv s)
    (ha : ∀ t, a ≠ .watchdogFire t) : SysInv (step s a) := by
  obtain ⟨h1, h2⟩ := hinv
  cases a with
  | loopEnter t =>
    show SysInv (if enterAcquires { s with lastBeat := t } then _ else _)
    by_cases hc : enterAcquires { s with lastBeat := t } = true
    · have hg : s.guard = false := by
        simp only [enterAcquires, Bool.and_eq_true, Bool.not_eq_true] at hc
        have := hc.2
        simp only [Bool.not_eq_true'] at this
        exact this
      rw [if_pos hc]
      refine ⟨?_, fun hcontra => by simp at hcontra⟩
      simp [h2 hg]
    · rw [if_neg hc]
      exact ⟨h1, h2⟩
  | cycleFinish =>
    show SysInv (if s.inFlight > 0 then _ else _)
    by_cases hc : s.inFlight > 0
    · rw [if_pos hc]
      constructor
      · show s.inFlight - 1 ≤ 1
        omega
      · intro _
        show s.inFlight - 1 = 0
        omega
    · rw [if_neg hc]
      exact ⟨h1, h2⟩
  | watchdogFire t => exact absurd rfl (ha t)

lemma sysRun_preserves_SysInv (acts : List SysAction) (s : SysState) (hinv : SysInv s)
    (h : ∀ a ∈ acts, ∀ t, a ≠ SysAction.watchdogFire t) : SysInv (sysRun s acts) := by
  induction acts generalizing s with
  | nil => exact hinv
  | cons a as ih =>
    exact ih (step s a)
      (step_preserves_SysInv s a hinv (h a (List.mem_cons_self a as)))
      (fun b hb => h b (List.mem_cons_of_mem a hb))

/-- Claim C6 (amended): across all interleavings of the self-rescheduling loop
and the mode-change effect (both modelled by `loopEnter`) with cycle
completions, at most one capture+analyze cycle is ever in flight, and an
invocation that finds the guard held is dropped (only the heartbeat is
stamped, nothing is queued).  The watchdog restart path is excluded: it resets
the guard unconditionally while a cycle may still be in flight (see the
counterexample), so the bound does not hold across it. -/
theorem c6_single_flight_without_watchdog (acts : List SysAction)
    (h : ∀ a ∈ acts, ∀ t, a ≠ SysAction.watchdogFire t) :
    (sysRun sysInit acts).inFlight ≤ 1 ∧
    ∀ s : SysState, s.guard = true →
      ∀ t, step s (.loopEnter t) = { s with lastBeat := t } := by
  constructor
  · exact (sysRun_preserves_SysInv acts sysInit ⟨by decide, fun _ => rfl⟩ h).1
  · intro s hg t
    show (if enterAcquires { s with lastBeat := t } then _ else _) = _
    rw [if_neg (by simp [enterAcquires, hg])]

theorem c6_witness :
    (sysRun sysInit [.loopEnter 0, .cycleFinish, .loopEnter 10, .loopEnter 20,
      .cycleFinish, .loopEnter 30]).inFlight ≤ 1 ∧
    ∀ s : SysState, s.guard = true →
      ∀ t, step s (.loopEnter t) = { s with lastBeat := t } :=
  c6_single_flight_without_watchdog
    [.loopEnter 0, .cycleFinish, .loopEnter 10, .loopEnter 20, .cycleFinish, .loopEnter 30]
    (by intro a ha t; fin_cases ha <;> simp)

/-! ## Command processing pipeline (`processCommand`, App.tsx lines 365-515)

The pipeline is embedded as a pure interpreter.  Mutable session state
(app state and the toggles, read through their synced refs) is threaded as a
record; every observable effect is appended to a trace tagged with the number
of awaits completed when it was emitted, so that "effect after suspension
point n" is expressible.  The environment supplies the result of every
external call and the value of `interactionIdRef.current` at each suspension
point (`curId n` = its value when `n` awaits have completed; `curId 0` is the
value at the entry check of line 366). -/

/-- The session state owned by the mode/state machine. -/
structure SessionState where
  appState : AppState
  isWalkingFeatureActive : Bool
  isNavigating : Bool
  isCompanionMode : Bool
  navPlan : Option NavigationPlan
  currentStepIndex : Nat
  deriving DecidableEq, Repr

/-- Observable effects of the pipeline.  The `set...` constructors are the
React state mutations; `resetCompanionTimer` is the write to
`lastCompanionMsgRef`; `scheduledRestore` is the 3-second `restoreState`
timer armed by `handleError`. -/
inductive CmdEffect where
  | spoke (text : String) (priority : Bool)
  | stoppedSpeaking
  | playedSound (kind : String)
  | setAppState (s : AppState)
  | setWalkingActive (b : Bool)
  | setNavigating (b : Bool)
  | setCompanionMode (b : Bool)
  | setNavPlan (p : Option NavigationPlan)
  | setStepIndex (n : Nat)
  | resetCompanionTimer
  | scheduledRestore
  deriving DecidableEq, Repr

/-- Whether an effect mutates session state (including the companion timer). -/
def isMutationEffect : CmdEffect → Bool
  | .setAppState _ => true
  | .setWalkingActive _ => true
  | .setNavigating _ => true
  | .setCompanionMode _ => true
  | .setNavPlan _ => true
  | .setStepIndex _ => true
  | .resetCompanionTimer => true
  | _ => false

/-- Whether an effect is speech. -/
def isSpeechEffect : CmdEffect → Bool
  | .spoke _ _ => true
  | _ => false

/-- How a state-mutating effect acts on the session state. -/
def applyEffect (st : SessionState) : CmdEffect → SessionState
  | .setAppState s => { st with appState := s }
  | .setWalkingActive b => { st with isWalkingFeatureActive := b }
  | .setNavigating b => { st with isNavigating := b }
  | .setCompanionMode b => { st with isCompanionMode := b }
  | .setNavPlan p => { st with navPlan := p }
  | .setStepIndex n => { st with currentStepIndex := n }
  | _ => st

/-- A point in the pipeline execution: current session state, trace of
(awaits-completed, effect) pairs, and the number of awaits completed. -/
structure Run where
  st : SessionState
  trace : List (Nat × CmdEffect)
  awaits : Nat
  deriving DecidableEq, Repr

/-- Perform an effect: apply it to the state and record it at the current
await count. -/
def Run.eff (r : Run) (e : CmdEffect) : Run :=
  { r with st := applyEffect r.st e, trace := r.trace ++ [(r.awaits, e)] }

/-- Pass a suspension point (one completed await). -/
def Run.await (r : Run) : Run :=
  { r with awaits := r.awaits + 1 }

/-- An awaited `audioService.speak` call: the utterance starts (is emitted)
and then its completion is awaited. -/
def Run.awaitSpeak (r : Run) (text : String) (priority : Bool) : Run :=
  (r.eff (.spoke text priority)).await

/-- `restoreState` (lines 359-363) reading the toggles through their refs. -/
def Run.restore (r : Run) : Run :=
  r.eff (.setAppState (restoreMode r.st.isNavigating r.st.isWalkingFeatureActive))

/-- `handleError` (lines 352-357): Error mode, error tone, spoken message,
and a 3-second timer to `restoreState`. -/
def Run.handleError (r : Run) (message : String) : Run :=
  (((r.eff (.setAppState .ERROR)).eff (.playedSound "error")).eff
      (.spoke message false)).eff .scheduledRestore

/-- Environment of one `processCommand` execution. -/
structure CmdEnv where
  curId : Nat → Nat
  classifyR : Except String IntentResult
  geoNav : Option Coords
  planR : Except String (Option NavigationPlan)
  geoVisual : Option Coords
  captureR : Except String (Option String)
  analyzeR : Except String String

/-- The COMPANION_MODE_ON branch (lines 383-394). -/
def branchCompanionOn (r : Run) : Run :=
  let a := (r.eff (.setCompanionMode true)).awaitSpeak
    "I\x27m here with you now. Let\x27s go together." false
  let b := a.eff .resetCompanionTimer
  if !b.st.isWalkingFeatureActive then
    (b.eff (.setWalkingActive true)).eff (.setAppState .WALKING)
  else
    b.restore

/-- The COMPANION_MODE_OFF branch (lines 395-400). -/
def branchCompanionOff (r : Run) : Run :=
  ((r.eff (.setCompanionMode false)).awaitSpeak "Quiet mode enabled." false).restore

/-- The NAVIGATE branch (lines 402-437).  The geolocation await is the first
suspension of the branch (its failure is caught locally); the route-planning
await is the second and may throw to the outer catch. -/
def branchNavigate (r : Run) (dest : Option String) (commandId : Nat)
    (env : CmdEnv) : Except (String × Run) Run :=
  match dest with
  | Option.none => .ok ((r.awaitSpeak "Where would you like to go?" false).restore)
  | some d =>
    let a := ((r.eff (.spoke ("Calculating walking route to " ++ d ++ ".") false)).await)
    if env.curId a.awaits != commandId then .ok a
    else
      let b := a.await
      match env.planR with
      | .error e => .error (e, b)
      | .ok planOpt =>
        if env.curId b.awaits != commandId then .ok b
        else
          match planOpt with
          | some plan =>
            let c := ((((((b.eff (.setNavPlan (some plan))).eff
              (.setStepIndex 0)).eff (.setNavigating true)).eff
              (.setWalkingActive true)).eff (.setCompanionMode true)).eff
              .resetCompanionTimer).eff (.setAppState .NAVIGATING)
            .ok (c.awaitSpeak ("Route found. " ++ plan.totalTime ++ ". Starting navigation.") false)
          | Option.none =>
            .ok ((b.eff (.spoke "I couldn\x27t find that location." false)).restore)

/-- The STOP_NAVIGATION branch (lines 439-446). -/
def branchStopNav (r : Run) : Run :=
  let a := ((r.eff (.setNavigating false)).eff (.setNavPlan Option.none)).awaitSpeak
    "Navigation stopped." false
  a.eff (.setAppState (if a.st.isWalkingFeatureActive then .WALKING else .IDLE))

/-- The WALKING_MODE_ON branch (lines 448-455). -/
def branchWalkingOn (r : Run) : Run :=
  let a := ((r.eff (.setWalkingActive true)).eff (.setCompanionMode true)).eff
    .resetCompanionTimer
  (a.awaitSpeak "Walking mode active. I\x27m with you." false).eff (.setAppState .WALKING)

/-- The WALKING_MODE_OFF branch (lines 456-462). -/
def branchWalkingOff (r : Run) : Run :=
  let a := (r.eff (.setWalkingActive false)).eff (.setCompanionMode false)
  (a.awaitSpeak "Walking mode disabled." false).eff (.setAppState .IDLE)

/-- The visual-intent group (lines 464-508): describe / read-text /
safety-check / where-am-i / unknown. -/
def branchVisual (r : Run) (itype : IntentType) (commandId : Nat)
    (env : CmdEnv) : Except (String × Run) Run :=
  let a :=
    if itype == .WHERE_AM_I then
      let x := ((r.eff (.setAppState .PROCESSING_INTENT)).eff
        (.spoke "Locating..." false)).await
      match env.geoVisual with
      | some _ => x
      | Option.none => x.eff (.spoke "GPS signal lost. Checking visual cues." false)
    else r
  if env.curId a.awaits != commandId then .ok a
  else
    let b := a.eff (.setAppState .CAPTURING)
    let c := if itype != .WHERE_AM_I then b.eff (.spoke "Checking..." false) else b
    let d := c.await
    if env.curId d.awaits != commandId then .ok d
    else
      let e := d.await
      match env.captureR with
      | .error err => .error (err, e)
      | .ok Option.none => .ok (e.handleError "Camera error.")
      | .ok (some _) =>
        let f := e.eff (.setAppState .ANALYZING)
        let g := f.await
        match env.analyzeR with
        | .error err => .error (err, g)
        | .ok analysisText =>
          if env.curId g.awaits != commandId then .ok g
          else
            let h := g.eff (.setAppState .SPEAKING)
            .ok ((h.awaitSpeak analysisText false).restore)

/-- The intent dispatch inside the try block (lines 383-508).  HANDS_FREE
intents fall through every branch and the try block ends silently. -/
def processCommandBody (r : Run) (intent : IntentResult) (commandId : Nat)
    (env : CmdEnv) : Except (String × Run) Run :=
  match intent.type with
  | .COMPANION_MODE_ON => .ok (branchCompanionOn r)
  | .COMPANION_MODE_OFF => .ok (branchCompanionOff r)
  | .NAVIGATE => branchNavigate r intent.destination commandId env
  | .STOP_NAVIGATION => .ok (branchStopNav r)
  | .WALKING_MODE_ON => .ok (branchWalkingOn r)
  | .WALKING_MODE_OFF => .ok (branchWalkingOff r)
  | .DESCRIBE => branchVisual r .DESCRIBE commandId env
  | .READ_TEXT => branchVisual r .READ_TEXT commandId env
  | .SAFETY_CHECK => branchVisual r .SAFETY_CHECK commandId env
  | .WHERE_AM_I => branchVisual r .WHERE_AM_I commandId env
  | .UNKNOWN => branchVisual r .UNKNOWN commandId env
  | .HANDS_FREE_ON => .ok r
  | .HANDS_FREE_OFF => .ok r

/-- `processCommand` (lines 365-515).  The entry check reads `curId 0`; the
intent classification is the first await; the outer catch (lines 510-514)
swallows "Aborted", re-checks the id, and otherwise calls `handleError`. -/
def processCommand (st0 : SessionState) (transcript : String) (commandId : Nat)
    (env : CmdEnv) : Run :=
  let r0 : Run := { st := st0, trace := [], awaits := 0 }
  if env.curId 0 != commandId then r0
  else if transcript == "" then
    ((r0.eff (.spoke "I didn\x27t hear you." false)).restore)
  else
    let r1 := (r0.eff (.setAppState .PROCESSING_INTENT)).eff (.playedSound "end")
    let r2 := r1.await
    match env.classifyR with
    | .error e =>
      if e == "Aborted" then r2
      else if env.curId r2.awaits != commandId then r2
      else r2.handleError "Error processing request."
    | .ok intent =>
      if env.curId r2.awaits != commandId then r2
      else
        match processCommandBody r2 intent commandId env with
        | .ok r => r
        | .error (e, r) =>
          if e == "Aborted" then r
          else if env.curId r.awaits != commandId then r
          else r.handleError "Error processing request."

/-! ## Navigation narrator (`startNavigationLoop`, App.tsx lines 231-262)

A tick of the narrator is embedded as a pure function of the session state
(read through the refs) and the speech-channel flag.  The advance case models
the uninterrupted tick: the utterance completes and the 14-second timer fires
while the session is still navigating, so `stepIndex` advances; interruptions
cancel the timer and are governed by the mode machine, not by the tick. -/

/-- Observable events of one navigation tick. -/
inductive NavEvent where
  | spoke (text : String)
  | playedSound (kind : String)
  | rescheduledTick (delayMs : Nat)
  | waited (ms : Nat)
  deriving DecidableEq, Repr

/-- One tick of `startNavigationLoop`. -/
def navTick (st : SessionState) (speaking : Bool) : SessionState × List NavEvent :=
  match st.navPlan with
  | Option.none => (st, [])
  | some plan =>
    if !st.isNavigating || st.appState != .NAVIGATING then (st, [])
    else if st.currentStepIndex ≥ plan.steps.length then
      ({ st with
          isNavigating := false
          navPlan := Option.none
          appState := if st.isWalkingFeatureActive then .WALKING else .IDLE },
       [.spoke "You have arrived."])
    else if !speaking then
      ({ st with currentStepIndex := st.currentStepIndex + 1 },
       [.playedSound "navigation", .spoke (plan.steps.getD st.currentStepIndex ""),
        .waited 14000])
    else
      (st, [.rescheduledTick 3000])

/-- `k` consecutive ticks with a free speech channel. -/
def navTicks (st : SessionState) : Nat → SessionState × List NavEvent
  | 0 => (st, [])
  | k + 1 =>
    let r := navTick st false
    let rest := navTicks r.1 k
    (rest.1, r.2 ++ rest.2)

/-- `getWalkingDirections` (geminiService.ts, concatenated into
services/audioService.ts, lines 814-838).  The destination and coordinates
only shape the prompt; the model call and the JSON parse are external inputs:
`abortedAtEntry`/`abortedAfterCall` are the two `signal?.aborted` reads,
`apiR` the outcome of `generateContentWithRetry` and `parsed` the outcome of
`JSON.parse(response.text || "{}")` cast to `NavigationPlan` (either throwing
is caught and yields null).  The response schema only requires `steps` to be
a string array — possibly empty — and an empty response text parses as an
object with no fields; a missing `steps` array is modelled as the empty list.
Neither the step count nor the destination is validated anywhere. -/
def getWalkingDirections (destination : String) (coords : Option Coords)
    (abortedAtEntry abortedAfterCall : Bool)
    (apiR : Except Unit Unit) (parsed : Except Unit NavigationPlan) :
    Option NavigationPlan :=
  if abortedAtEntry then Option.none
  else
    match apiR with
    | .error _ => Option.none
    | .ok _ =>
      if abortedAfterCall then Option.none
      else
        match parsed with
        | .error _ => Option.none
        | .ok plan => some plan

lemma navTick_advance (st : SessionState) (plan : NavigationPlan)
    (hplan : st.navPlan = some plan) (hnav : st.isNavigating = true)
    (happ : st.appState = .NAVIGATING)
    (hlt : st.currentStepIndex < plan.steps.length) :
    navTick st false =
      ({ st with currentStepIndex := st.currentStepIndex + 1 },
       [.playedSound "navigation", .spoke (plan.steps.getD st.currentStepIndex ""),
        .waited 14000]) := by
  simp [navTick, hplan, hnav, happ, Nat.not_le.mpr hlt]

lemma navTick_arrival (st : SessionState) (plan : NavigationPlan)
    (hplan : st.navPlan = some plan) (hnav : st.isNavigating = true)
    (happ : st.appState = .NAVIGATING)
    (hge : plan.steps.length ≤ st.currentStepIndex) :
    navTick st false =
      ({ st with
          isNavigating := false
          navPlan := Option.none
          appState := if st.isWalkingFeatureActive then .WALKING else .IDLE },
       [.spoke "You have arrived."]) := by
  simp [navTick, hplan, hnav, happ, hge]

lemma navTick_busy (st : SessionState) (plan : NavigationPlan)
    (hplan : st.navPlan = some plan) (hnav : st.isNavigating = true)
    (happ : st.appState = .NAVIGATING)
    (hlt : st.currentStepIndex < plan.steps.length) :
    navTick st true = (st, [.rescheduledTick 3000]) := by
  simp [navTick, hplan, hnav, happ, Nat.not_le.mpr hlt]

/-- Iterating `k` free-channel ticks while `k` steps remain advances the
cursor by `k` and leaves the rest of the session untouched. -/
lemma navTicks_advance (plan : NavigationPlan) (k : Nat) :
    ∀ st : SessionState, st.navPlan = some plan → st.isNavigating = true →
      st.appState = .NAVIGATING → st.currentStepIndex + k ≤ plan.steps.length →
      (navTicks st k).1 = { st with currentStepIndex := st.currentStepIndex + k } := by
  induction k with
  | zero =>
    intro st hplan hnav happ hk
    simp [navTicks]
  | succ k ih =>
    intro st hplan hnav happ hk
    have hlt : st.currentStepIndex < plan.steps.length := by omega
    show (navTicks st (k + 1)).1 = _
    rw [navTicks]
    simp only [navTick_advance st plan hplan hnav happ hlt]
    rw [ih { st with currentStepIndex := st.currentStepIndex + 1 } hplan hnav happ (by simp; omega)]
    simp [Nat.add_assoc, Nat.add_comm 1 k]

/-- Claim C8 (amended): on every navigation tick, a cursor at the step count
announces arrival, clears the plan and navigating toggle and falls back to
Walking if the walking toggle is active (else Idle); a busy speech channel
reschedules the same tick after 3 seconds without advancing; otherwise the
tick plays the cue tone, speaks the step and advances the cursor after the
14-second wait.  Route planning returns exactly the JSON-parsed model
response (null on abort, call failure or parse failure) and performs no
validation, so a returned plan may have zero steps (see the counterexample);
advancing through all steps of a plan reaches arrival and clears the plan;
stop-navigation midway clears the plan without an arrival announcement. -/
theorem c8_navigation_round_trip :
    (∀ (dest : String) (coords : Option Coords) (a0 a1 : Bool)
      (apiR : Except Unit Unit) (parsed : Except Unit NavigationPlan)
      (plan : NavigationPlan),
      getWalkingDirections dest coords a0 a1 apiR parsed = some plan ↔
        a0 = false ∧ apiR = .ok () ∧ a1 = false ∧ parsed = .ok plan) ∧
    (∀ (st : SessionState) (plan : NavigationPlan), st.navPlan = some plan →
      st.isNavigating = true → st.appState = .NAVIGATING →
      plan.steps.length ≤ st.currentStepIndex →
      navTick st false =
        ({ st with
            isNavigating := false
            navPlan := Option.none
            appState := if st.isWalkingFeatureActive then .WALKING else .IDLE },
         [.spoke "You have arrived."])) ∧
    (∀ (st : SessionState) (plan : NavigationPlan), st.navPlan = some plan →
      st.isNavigating = true → st.appState = .NAVIGATING →
      st.currentStepIndex < plan.steps.length →
      navTick st true = (st, [.rescheduledTick 3000]) ∧
      navTick st false =
        ({ st with currentStepIndex := st.currentStepIndex + 1 },
         [.playedSound "navigation", .spoke (plan.steps.getD st.currentStepIndex ""),
          .waited 14000])) ∧
    (∀ (st : SessionState) (plan : NavigationPlan), st.navPlan = some plan →
      st.isNavigating = true → st.appState = .NAVIGATING →
      st.currentStepIndex = 0 →
      (navTicks st plan.steps.length).1.currentStepIndex = plan.steps.length ∧
      (navTicks st plan.steps.length).1.navPlan = some plan ∧
      (navTick (navTicks st plan.steps.length).1 false).1.navPlan = Option.none ∧
      (navTick (navTicks st plan.steps.length).1 false).1.isNavigating = false ∧
      (navTick (navTicks st plan.steps.length).1 false).2 =
        [.spoke "You have arrived."]) ∧
    (∀ (st : SessionState) (transcript : String) (cid : Nat) (env : CmdEnv)
      (intent : IntentResult), env.classifyR = .ok intent →
      intent.type = .STOP_NAVIGATION → (∀ i, env.curId i = cid) →
      transcript ≠ "" →
      (processCommand st transcript cid env).st.navPlan = Option.none ∧
      (processCommand st transcript cid env).st.isNavigating = false ∧
      ∀ n b, (n, CmdEffect.spoke "You have arrived." b) ∉
        (processCommand st transcript cid env).trace) := by
  refine ⟨?_, ?_, ?_, ?_, ?_⟩
  · intro dest coords a0 a1 apiR parsed plan
    unfold getWalkingDirections
    rcases apiR with u | u <;> rcases parsed with v | p <;> cases a0 <;> cases a1 <;>
      simp
  · intro st plan hplan hnav happ hge
    exact navTick_arrival st plan hplan hnav happ hge
  · intro st plan hplan hnav happ hlt
    exact ⟨navTick_busy st plan hplan hnav happ hlt,
      navTick_advance st plan hplan hnav happ hlt⟩
  · intro st plan hplan hnav happ hzero
    have hadv := navTicks_advance plan plan.steps.length st hplan hnav happ
      (by omega)
    have hstate : (navTicks st plan.steps.length).1 =
        { st with currentStepIndex := st.currentStepIndex + plan.steps.length } := hadv
    have hidx : (navTicks st plan.steps.length).1.currentStepIndex = plan.steps.length := by
      rw [hstate]
      simp [hzero]
    refine ⟨hidx, by rw [hstate]; exact hplan, ?_, ?_, ?_⟩ <;>
      rw [navTick_arrival (navTicks st plan.steps.length).1 plan
        (by rw [hstate]; exact hplan) (by rw [hstate]; exact hnav)
        (by rw [hstate]; exact happ) (by rw [hidx])]
  · intro st transcript cid env intent hcl hit hid htr
    have h0 : (env.curId 0 != cid) = false := by simp [hid]
    have h1 : (env.curId 1 != cid) = false := by simp [hid]
    have ht : (transcript == "") = false := by simp [htr]
    refine ⟨?_, ?_, ?_⟩ <;>
      simp [processCommand, h0, h1, ht, hcl, processCommandBody, hit, branchStopNav,
        Run.eff, Run.await, Run.awaitSpeak, applyEffect]

/-- The plan obtained when the model answers with an empty JSON object:
`"{}"` parses to an object with no fields, so the steps array is empty (and
nothing in the code rejects it). -/
def c8EmptyPlan : NavigationPlan :=
  { destination := ""
    steps := []
    totalDistance := ""
    totalTime := "" }

/-- Counterexample to claim C8 as stated: the real `getWalkingDirections`
returns whatever the model response parsed to — here a plan with zero steps
for a perfectly concrete destination — so a plan obtained from a resolved
destination need not have at least one step; the first tick of such a plan
announces arrival immediately. -/
theorem c8_counterexample :
    getWalkingDirections "the park" Option.none false false (.ok ()) (.ok c8EmptyPlan) =
      some c8EmptyPlan ∧
    c8EmptyPlan.steps.length = 0 ∧
    (navTick
      { appState := .NAVIGATING
        isWalkingFeatureActive := true
        isNavigating := true
        isCompanionMode := true
        navPlan := some c8EmptyPlan
        currentStepIndex := 0 } false).2 = [.spoke "You have arrived."] :=
  ⟨rfl, rfl, by decide⟩

/-- Concrete plan for the C8 witness: the parse of a well-formed model
response for destination "the park". -/
def c8Plan : NavigationPlan :=
  { destination := "the park"
    steps := ["Head toward the park."]
    totalDistance := "1 km"
    totalTime := "12 minutes" }

/-- Concrete navigating session for the C8 witness. -/
def c8St : SessionState :=
  { appState := .NAVIGATING
    isWalkingFeatureActive := true
    isNavigating := true
    isCompanionMode := true
    navPlan := some c8Plan
    currentStepIndex := 0 }

/-- Concrete environment for the C8 witness: a STOP_NAVIGATION command whose
interaction id stays current. -/
def c8Env : CmdEnv :=
  { curId := fun _ => 7
    classifyR := .ok
      { type := .STOP_NAVIGATION, confidence := 95, originalQuery := "stop navigation" }
    geoNav := Option.none
    planR := .ok Option.none
    geoVisual := Option.none
    captureR := .ok Option.none
    analyzeR := .ok "" }

theorem c8_witness :
    getWalkingDirections "the park" Option.none false false (.ok ()) (.ok c8Plan) =
      some c8Plan ∧
    (navTicks c8St c8Plan.steps.length).1.currentStepIndex = c8Plan.steps.length ∧
    (navTick (navTicks c8St c8Plan.steps.length).1 false).1.navPlan = Option.none ∧
    (processCommand c8St "stop navigation" 7 c8Env).st.navPlan = Option.none := by
  have h := c8_navigation_round_trip
  refine ⟨(h.1 "the park" Option.none false false (.ok ()) (.ok c8Plan) c8Plan).mpr
    ⟨rfl, rfl, rfl, rfl⟩, ?_, ?_, ?_⟩
  · exact (h.2.2.2.1 c8St c8Plan rfl rfl rfl rfl).1
  · exact (h.2.2.2.1 c8St c8Plan rfl rfl rfl rfl).2.2.1
  · exact (h.2.2.2.2 c8St "stop navigation" 7 c8Env _ rfl rfl (fun i => rfl)
      (by decide)).1

/-! ## Claim C2: the invariant Navigating implies walkingActive -/

/-- The session-state invariant of spec section 3. -/
def NavInv (st : SessionState) : Prop :=
  st.isNavigating = true → st.isWalkingFeatureActive = true

lemma branchCompanionOn_nav_inv (r : Run) (h : NavInv r.st) :
    NavInv (branchCompanionOn r).st := by
  simp only [branchCompanionOn]
  split_ifs <;>
    simp_all [NavInv, Run.awaitSpeak, Run.await, Run.eff, Run.restore, applyEffect]

lemma branchCompanionOff_nav_inv (r : Run) (h : NavInv r.st) :
    NavInv (branchCompanionOff r).st := by
  simp_all [NavInv, branchCompanionOff, Run.awaitSpeak, Run.await, Run.eff,
    Run.restore, applyEffect]

lemma branchStopNav_nav_inv (r : Run) (h : NavInv r.st) :
    NavInv (branchStopNav r).st := by
  simp_all [NavInv, branchStopNav, Run.awaitSpeak, Run.await, Run.eff, applyEffect]

lemma branchWalkingOn_nav_inv (r : Run) (h : NavInv r.st) :
    NavInv (branchWalkingOn r).st := by
  simp_all [NavInv, branchWalkingOn, Run.awaitSpeak, Run.await, Run.eff, applyEffect]

/-- The run a fallible branch ends at, whether it returned or threw. -/
def exceptRun : Except (String × Run) Run → Run
  | .ok r => r
  | .error (_, r) => r

lemma handleError_nav_inv (r : Run) (msg : String) (h : NavInv r.st) :
    NavInv (r.handleError msg).st := by
  simp_all [NavInv, Run.handleError, Run.eff, applyEffect]

lemma branchNavigate_nav_inv (r : Run) (dest : Option String) (cid : Nat)
    (env : CmdEnv) (h : NavInv r.st) :
    NavInv (exceptRun (branchNavigate r dest cid env)).st := by
  simp only [branchNavigate]
  cases dest with
  | none =>
    simp_all [NavInv, exceptRun, Run.awaitSpeak, Run.await, Run.eff, Run.restore,
      applyEffect]
  | some d =>
    rcases hpl : env.planR with e | (_ | plan) <;>
      dsimp only <;>
      split_ifs <;>
      simp_all [NavInv, exceptRun, Run.awaitSpeak, Run.await, Run.eff, Run.restore,
        applyEffect]

lemma branchVisual_nav_inv (r : Run) (itype : IntentType) (cid : Nat)
    (env : CmdEnv) (h : NavInv r.st) :
    NavInv (exceptRun (branchVisual r itype cid env)).st := by
  simp only [branchVisual]
  rcases hgeo : env.geoVisual with _ | loc <;>
    rcases hcap : env.captureR with e | (_ | f) <;>
    rcases hana : env.analyzeR with e2 | t <;>
    dsimp only <;>
    split_ifs <;>
    simp_all [NavInv, exceptRun, Run.awaitSpeak, Run.await, Run.eff, Run.restore,
      Run.handleError, applyEffect]

lemma processCommandBody_nav_inv (r : Run) (intent : IntentResult) (cid : Nat)
    (env : CmdEnv) (h : NavInv r.st)
    (hno : intent.type ≠ .WALKING_MODE_OFF) :
    NavInv (exceptRun (processCommandBody r intent cid env)).st := by
  unfold processCommandBody
  cases hint : intent.type with
  | COMPANION_MODE_ON => exact branchCompanionOn_nav_inv r h
  | COMPANION_MODE_OFF => exact branchCompanionOff_nav_inv r h
  | NAVIGATE => exact branchNavigate_nav_inv r intent.destination cid env h
  | STOP_NAVIGATION => exact branchStopNav_nav_inv r h
  | WALKING_MODE_ON => exact branchWalkingOn_nav_inv r h
  | WALKING_MODE_OFF => exact absurd hint hno
  | DESCRIBE => exact branchVisual_nav_inv r .DESCRIBE cid env h
  | READ_TEXT => exact branchVisual_nav_inv r .READ_TEXT cid env h
  | SAFETY_CHECK => exact branchVisual_nav_inv r .SAFETY_CHECK cid env h
  | WHERE_AM_I => exact branchVisual_nav_inv r .WHERE_AM_I cid env h
  | UNKNOWN => exact branchVisual_nav_inv r .UNKNOWN cid env h
  | HANDS_FREE_ON => exact h
  | HANDS_FREE_OFF => exact h

lemma postDispatch_nav_inv (r : Run) (intent : IntentResult) (cid : Nat)
    (env : CmdEnv) (h : NavInv r.st) (hno : intent.type ≠ .WALKING_MODE_OFF) :
    NavInv (match processCommandBody r intent cid env with
      | .ok rr => rr
      | .error (e, rr) =>
        if e == "Aborted" then rr
        else if env.curId rr.awaits != cid then rr
        else rr.handleError "Error processing request.").st := by
  cases hres : processCommandBody r intent cid env with
  | ok rr =>
    have hthis := processCommandBody_nav_inv r intent cid env h hno
    rw [hres] at hthis
    exact hthis
  | error pr =>
    obtain ⟨e, rr⟩ := pr
    have hthis := processCommandBody_nav_inv r intent cid env h hno
    rw [hres] at hthis
    dsimp only
    split_ifs <;> first | exact hthis | exact handleError_nav_inv rr _ hthis

/-- Claim C2 (amended): every dispatch of `processCommand` whose classified
intent is not WALKING_MODE_OFF preserves the invariant Navigating implies
walkingActive, for every environment (including stale interaction ids); the
WALKING_MODE_OFF branch is the sole violator (see the counterexample). -/
theorem c2_invariant_preserved_without_walking_off (st0 : SessionState)
    (transcript : String) (cid : Nat) (env : CmdEnv)
    (hinv : NavInv st0)
    (hno : ∀ intent, env.classifyR = .ok intent → intent.type ≠ .WALKING_MODE_OFF) :
    NavInv (processCommand st0 transcript cid env).st := by
  unfold processCommand
  split_ifs with h0 ht
  · exact hinv
  · simp_all [NavInv, Run.eff, Run.restore, applyEffect]
  · rcases hcl : env.classifyR with e | intent <;> dsimp only
    · split_ifs with ha hb
      · simpa [NavInv, Run.eff, Run.await, applyEffect] using hinv
      · simpa [NavInv, Run.eff, Run.await, applyEffect] using hinv
      · apply handleError_nav_inv
        simpa [NavInv, Run.eff, Run.await, applyEffect] using hinv
    · split_ifs with hb
      · simpa [NavInv, Run.eff, Run.await, applyEffect] using hinv
      · exact postDispatch_nav_inv _ intent cid env
          (by simpa [NavInv, Run.eff, Run.await, applyEffect] using hinv)
          (hno intent hcl)

/-- Concrete plan for the C2 counterexample. -/
def c2Plan : NavigationPlan :=
  { destination := "the library"
    steps := ["Walk straight for two blocks."]
    totalDistance := "300 m"
    totalTime := "4 minutes" }

/-- Concrete navigating session satisfying the invariant before the command. -/
def c2State : SessionState :=
  { appState := .NAVIGATING
    isWalkingFeatureActive := true
    isNavigating := true
    isCompanionMode := true
    navPlan := some c2Plan
    currentStepIndex := 0 }

/-- Benign environment dispatching WALKING_MODE_OFF: the interaction id stays
current throughout. -/
def c2Env : CmdEnv :=
  { curId := fun _ => 5
    classifyR := .ok
      { type := .WALKING_MODE_OFF, confidence := 90,
        originalQuery := "turn off walking mode" }
    geoNav := Option.none
    planR := .ok Option.none
    geoVisual := Option.none
    captureR := .ok Option.none
    analyzeR := .ok "" }

/-- Counterexample to claim C2 as stated: from a Navigating session (invariant
satisfied), the WALKING_MODE_OFF branch clears the walking toggle but leaves
`isNavigating` untouched (lines 456-462 never call `setIsNavigating`), so the
state after the dispatch has isNavigating true and isWalkingFeatureActive
false — the invariant does not hold after this command dispatch. -/
theorem c2_counterexample :
    c2State.isNavigating = true ∧ c2State.isWalkingFeatureActive = true ∧
    (processCommand c2State "turn off walking mode" 5 c2Env).st.isNavigating = true ∧
    (processCommand c2State "turn off walking mode" 5 c2Env).st.isWalkingFeatureActive
      = false :=
  ⟨rfl, rfl, by decide, by decide⟩

/-- Benign environment dispatching NAVIGATE for the C2 witness. -/
def c2NavEnv : CmdEnv :=
  { curId := fun _ => 5
    classifyR := .ok
      { type := .NAVIGATE, confidence := 90,
        originalQuery := "navigate to the library",
        destination := some "the library" }
    geoNav := Option.none
    planR := .ok (some c2Plan)
    geoVisual := Option.none
    captureR := .ok Option.none
    analyzeR := .ok "" }

theorem c2_witness :
    NavInv (processCommand c2State "navigate to the library" 5 c2NavEnv).st :=
  c2_invariant_preserved_without_walking_off c2State "navigate to the library" 5
    c2NavEnv (fun _ => rfl) (by intro intent hcl; cases hcl; decide)

/-! ## Claim C1: interaction-id re-checks in the command pipeline -/

/-- If the interaction id is already stale at the post-classification check,
no effect at all is emitted after the first await: the dispatch is abandoned
before any branch runs. -/
lemma c1_stale_after_classify (st0 : SessionState) (transcript : String)
    (cid : Nat) (env : CmdEnv) (h1 : env.curId 1 ≠ cid) :
    ∀ p ∈ (processCommand st0 transcript cid env).trace, p.1 = 0 := by
  unfold processCommand
  split_ifs with h0 ht
  · simp
  · simp [Run.eff, Run.restore, applyEffect]
  · rcases hcl : env.classifyR with e | intent <;> dsimp only
    · split_ifs with ha hb
      · simp [Run.eff, Run.await, applyEffect]
      · simp [Run.eff, Run.await, applyEffect]
      · exfalso
        apply hb
        simp only [Run.await, Run.eff]
        exact bne_iff_ne.mpr h1
    · split_ifs with hb
      · simp [Run.eff, Run.await, applyEffect]
      · exfalso
        apply hb
        simp only [Run.await, Run.eff]
        exact bne_iff_ne.mpr h1

/-- In the NAVIGATE branch, if the interaction id is stale from the
geolocation await on, every effect was emitted at or before the first await:
the route is never applied and no state is mutated after the stale point. -/
lemma c1_stale_after_nav_geolocate (st0 : SessionState) (transcript : String)
    (cid : Nat) (env : CmdEnv) (intent : IntentResult) (d : String)
    (hcl : env.classifyR = .ok intent)
    (htype : intent.type = .NAVIGATE)
    (hdest : intent.destination = some d)
    (hstale : ∀ i, 2 ≤ i → env.curId i ≠ cid) :
    ∀ p ∈ (processCommand st0 transcript cid env).trace, p.1 ≤ 1 := by
  unfold processCommand
  split_ifs with h0 ht
  · simp
  · simp [Run.eff, Run.restore, applyEffect]
  · rw [hcl]
    dsimp only
    split_ifs with hb
    · simp [Run.eff, Run.await, applyEffect]
    · unfold processCommandBody
      rw [htype]
      rw [hdest]
      simp only [branchNavigate]
      have hc2 : (env.curId 2 != cid) = true := bne_iff_ne.mpr (hstale 2 (by omega))
      simp [Run.eff, Run.await, Run.awaitSpeak, applyEffect, hc2]

/-- In the NAVIGATE branch, if the interaction id is still current at the
geolocation check but stale from the route-planning await on, every effect
was emitted at or before the first await: the line-420 check (or the catch
re-check for a throwing plan call) discards the route before any state is
applied. -/
lemma c1_stale_after_nav_plan (st0 : SessionState) (transcript : String)
    (cid : Nat) (env : CmdEnv) (intent : IntentResult) (d : String)
    (hcl : env.classifyR = .ok intent)
    (htype : intent.type = .NAVIGATE)
    (hdest : intent.destination = some d)
    (hstale : ∀ i, 3 ≤ i → env.curId i ≠ cid) :
    ∀ p ∈ (processCommand st0 transcript cid env).trace, p.1 ≤ 1 := by
  unfold processCommand
  split_ifs with h0 ht
  · simp
  · simp [Run.eff, Run.restore, applyEffect]
  · rw [hcl]
    dsimp only
    split_ifs with hb
    · simp [Run.eff, Run.await, applyEffect]
    · unfold processCommandBody
      rw [htype]
      rw [hdest]
      simp only [branchNavigate]
      have hc3 : (env.curId 3 != cid) = true := bne_iff_ne.mpr (hstale 3 (by omega))
      rcases hpl : env.planR with e | planOpt <;>
        by_cases h2 : env.curId 2 = cid <;>
          simp [Run.eff, Run.await, Run.awaitSpeak, applyEffect, hc3, h2] <;>
          first
            | rfl
            | (intro a b hab
               repeat' (split at hab)
               all_goals
                 first
                   | (simp at hab
                      omega)
                   | (simp_all
                      done))
            | (simp_all
               done)

/-- In the visual branches (describe / read-text / safety-check / unknown), if
the interaction id is stale from the pre-capture delay await on, every effect
was emitted at or before the first await: the camera is never read and no
state is mutated after the stale point. -/
lemma c1_stale_after_visual_delay (st0 : SessionState) (transcript : String)
    (cid : Nat) (env : CmdEnv) (intent : IntentResult)
    (hcl : env.classifyR = .ok intent)
    (htype : intent.type = .DESCRIBE ∨ intent.type = .READ_TEXT ∨
      intent.type = .SAFETY_CHECK ∨ intent.type = .UNKNOWN)
    (hstale : ∀ i, 2 ≤ i → env.curId i ≠ cid) :
    ∀ p ∈ (processCommand st0 transcript cid env).trace, p.1 ≤ 1 := by
  unfold processCommand
  split_ifs with h0 ht
  · simp
  · simp [Run.eff, Run.restore, applyEffect]
  · rw [hcl]
    dsimp only
    split_ifs with hb
    · simp [Run.eff, Run.await, applyEffect]
    · simp [Run.eff, Run.await] at hb
      have hc2 : (env.curId 2 != cid) = true := bne_iff_ne.mpr (hstale 2 (by omega))
      rcases htype with hti | hti | hti | hti <;>
      · unfold processCommandBody
        rw [hti]
        simp only [branchVisual]
        simp [Run.eff, Run.await, Run.awaitSpeak, applyEffect, hb, hc2]

/-- Bridge from the executable form of a tag bound to its membership form. -/
lemma all_tag_le (l : List (Nat × CmdEffect)) (n : Nat)
    (h : (l.all fun p => decide (p.1 ≤ n)) = true) : ∀ p ∈ l, p.1 ≤ n := by
  simpa [List.all_eq_true] using h

/-- In the visual branches, if the interaction id is stale from the
image-analysis await on, every effect was emitted at or before the third
await (the frame capture): the narration is never spoken, the SPEAKING state
is never entered and the prior mode is not yet restored.  (Tags up to 3 do
occur: the ANALYZING transition after the unchecked capture await.) -/
lemma c1_stale_after_visual_analyze (st0 : SessionState) (transcript : String)
    (cid : Nat) (env : CmdEnv) (intent : IntentResult)
    (hcl : env.classifyR = .ok intent)
    (htype : intent.type = .DESCRIBE ∨ intent.type = .READ_TEXT ∨
      intent.type = .SAFETY_CHECK ∨ intent.type = .UNKNOWN)
    (hstale : ∀ i, 4 ≤ i → env.curId i ≠ cid) :
    ∀ p ∈ (processCommand st0 transcript cid env).trace, p.1 ≤ 3 := by
  unfold processCommand
  split_ifs with h0 ht
  · simp
  · simp [Run.eff, Run.restore, applyEffect]
  · rw [hcl]
    dsimp only
    split_ifs with hb
    · simp [Run.eff, Run.await, applyEffect]
    · simp [Run.eff, Run.await] at hb
      have hc4 : (env.curId 4 != cid) = true := bne_iff_ne.mpr (hstale 4 (by omega))
      rcases htype with hti | hti | hti | hti <;>
      · unfold processCommandBody
        rw [hti]
        simp only [branchVisual]
        rcases hcap : env.captureR with e | (_ | f) <;>
          rcases hana : env.analyzeR with e2 | t <;>
            by_cases h2 : env.curId 2 = cid <;>
            simp [Run.eff, Run.await, Run.awaitSpeak, Run.handleError, applyEffect,
              hb, hc4, h2] <;>
            first
              | rfl
              | (intro a b hab
                 repeat' (split at hab)
                 all_goals
                   first
                     | (simp at hab
                        omega)
                     | (simp_all
                        done))
              | (simp_all
                 done)

/-- In the WHERE_AM_I branch, if the interaction id is stale from its
geolocation await on, every effect was emitted at or before the second await
(the "GPS signal lost" fallback speech of the failed geolocation being the
last possible one): the line-486 check abandons the branch before the camera
phase. -/
lemma c1_stale_after_whereami_geolocate (st0 : SessionState)
    (transcript : String) (cid : Nat) (env : CmdEnv) (intent : IntentResult)
    (hcl : env.classifyR = .ok intent)
    (hti : intent.type = .WHERE_AM_I)
    (hstale : ∀ i, 2 ≤ i → env.curId i ≠ cid) :
    ∀ p ∈ (processCommand st0 transcript cid env).trace, p.1 ≤ 2 := by
  unfold processCommand
  split_ifs with h0 ht
  · simp
  · simp [Run.eff, Run.restore, applyEffect]
  · rw [hcl]
    dsimp only
    split_ifs with hb
    · simp [Run.eff, Run.await, applyEffect]
    · simp [Run.eff, Run.await] at hb
      have hc2 : (env.curId 2 != cid) = true := bne_iff_ne.mpr (hstale 2 (by omega))
      unfold processCommandBody
      rw [hti]
      simp only [branchVisual]
      rcases hgeo : env.geoVisual with _ | loc <;>
        simp [Run.eff, Run.await, Run.awaitSpeak, applyEffect, hb, hc2]

/-- In the WHERE_AM_I branch, if the interaction id is still current at the
geolocation check but stale from the pre-capture delay await on, every effect
was emitted at or before the CAPTURING transition (tag 2): the line-491 check
abandons the branch before the camera is read. -/
lemma c1_stale_after_whereami_delay (st0 : SessionState)
    (transcript : String) (cid : Nat) (env : CmdEnv) (intent : IntentResult)
    (hcl : env.classifyR = .ok intent)
    (hti : intent.type = .WHERE_AM_I)
    (hstale : ∀ i, 3 ≤ i → env.curId i ≠ cid) :
    ∀ p ∈ (processCommand st0 transcript cid env).trace, p.1 ≤ 2 := by
  unfold processCommand
  split_ifs with h0 ht
  · simp
  · simp [Run.eff, Run.restore, applyEffect]
  · rw [hcl]
    dsimp only
    split_ifs with hb
    · simp [Run.eff, Run.await, applyEffect]
    · simp [Run.eff, Run.await] at hb
      have hc3 : (env.curId 3 != cid) = true := bne_iff_ne.mpr (hstale 3 (by omega))
      unfold processCommandBody
      rw [hti]
      simp only [branchVisual]
      rcases hgeo : env.geoVisual with _ | loc <;>
        by_cases h2 : env.curId 2 = cid <;>
          simp [Run.eff, Run.await, Run.awaitSpeak, applyEffect, hb, hc3, h2] <;>
          first
            | rfl
            | (intro a b hab
               repeat' (split at hab)
               all_goals
                 first
                   | (simp at hab
                      omega)
                   | (simp_all
                      done))
            | (simp_all
               done)

/-- In the WHERE_AM_I branch, if the interaction id is stale from the
image-analysis await on, every effect was emitted at or before the fourth
await (the frame capture; the ANALYZING transition after the unchecked
capture is the last possible one): the line-502 check abandons the narration
and the mode restore. -/
lemma c1_stale_after_whereami_analyze (st0 : SessionState)
    (transcript : String) (cid : Nat) (env : CmdEnv) (intent : IntentResult)
    (hcl : env.classifyR = .ok intent)
    (hti : intent.type = .WHERE_AM_I)
    (hstale : ∀ i, 5 ≤ i → env.curId i ≠ cid) :
    ∀ p ∈ (processCommand st0 transcript cid env).trace, p.1 ≤ 4 := by
  unfold processCommand
  split_ifs with h0 ht
  · simp
  · simp [Run.eff, Run.restore, applyEffect]
  · rw [hcl]
    dsimp only
    split_ifs with hb
    · simp [Run.eff, Run.await, applyEffect]
    · simp [Run.eff, Run.await] at hb
      have hc5 : (env.curId 5 != cid) = true := bne_iff_ne.mpr (hstale 5 (by omega))
      unfold processCommandBody
      rw [hti]
      simp only [branchVisual]
      rcases hgeo : env.geoVisual with _ | loc <;>
        rcases hcap : env.captureR with e | (_ | f) <;>
          rcases hana : env.analyzeR with e2 | t <;>
            by_cases h2 : env.curId 2 = cid <;>
            by_cases h3 : env.curId 3 = cid <;>
            simp [Run.eff, Run.await, Run.awaitSpeak, Run.handleError, applyEffect,
              hb, hc5, h2, h3] <;>
            first
              | rfl
              | (intro a b hab
                 repeat' (split at hab)
                 all_goals
                   first
                     | (simp at hab
                        omega)
                     | (simp_all
                        done))
              | (simp_all
                 done)

/-- Session state for the C1 counterexample: walking mode active. -/
def c1State : SessionState :=
  { appState := .WALKING
    isWalkingFeatureActive := true
    isNavigating := false
    isCompanionMode := true
    navPlan := Option.none
    currentStepIndex := 0 }

/-- Interaction-id schedule for the C1 counterexample: the id is current
through the classification await (suspension points 0 and 1) and superseded
from the second await — the awaited confirmation speech — onwards. -/
def c1CurId : Nat → Nat := fun i => if i ≤ 1 then 5 else 6

/-- Environment for the C1 counterexample: a WALKING_MODE_OFF command whose
interaction id is superseded while its confirmation speech is awaited. -/
def c1Env : CmdEnv :=
  { curId := c1CurId
    classifyR := .ok
      { type := .WALKING_MODE_OFF, confidence := 90,
        originalQuery := "stop walking mode" }
    geoNav := Option.none
    planR := .ok Option.none
    geoVisual := Option.none
    captureR := .ok Option.none
    analyzeR := .ok "" }

/-- Counterexample to claim C1 as stated: the WALKING_MODE_OFF branch awaits
its confirmation speech (second await) and then calls `setAppState(IDLE)` with
no id re-check (lines 459-460), so even though the interaction id is stale
from the second suspension point onwards, a state mutation tagged with await
count 2 is still performed. -/
theorem c1_counterexample :
    (∀ i, 2 ≤ i → c1Env.curId i ≠ 5) ∧
    ((processCommand c1State "stop walking mode" 5 c1Env).trace.any
      (fun p => decide (2 ≤ p.1) && isMutationEffect p.2)) = true := by
  constructor
  · intro i hi
    have hv : c1Env.curId i = 6 := by
      show (if i ≤ 1 then 5 else 6) = 6
      rw [if_neg (by omega)]
    omega
  · decide

/-- Claim C1 (amended): the pipeline re-checks the interaction id after the
intent-classification await; in the NAVIGATE branch after the geolocation
await and again after the route-planning await; in the
describe/read-text/safety-check/unknown branches after the pre-capture delay
await and after the image-analysis await; and in the WHERE_AM_I branch after
its geolocation await, after the pre-capture delay await and after the
image-analysis await — abandoning all further effects when stale.  It does
not re-check after awaited speech calls or after the frame capture, so a
superseded interaction may still perform the trailing mutations of its branch
(see the counterexample). -/
theorem c1_stale_id_abandons_at_checked_points :
    (∀ (st0 : SessionState) (transcript : String) (cid : Nat) (env : CmdEnv),
      env.curId 1 ≠ cid →
      ∀ p ∈ (processCommand st0 transcript cid env).trace, p.1 = 0) ∧
    (∀ (st0 : SessionState) (transcript : String) (cid : Nat) (env : CmdEnv)
      (intent : IntentResult) (d : String), env.classifyR = .ok intent →
      intent.type = .NAVIGATE → intent.destination = some d →
      (∀ i, 2 ≤ i → env.curId i ≠ cid) →
      ∀ p ∈ (processCommand st0 transcript cid env).trace, p.1 ≤ 1) ∧
    (∀ (st0 : SessionState) (transcript : String) (cid : Nat) (env : CmdEnv)
      (intent : IntentResult), env.classifyR = .ok intent →
      (intent.type = .DESCRIBE ∨ intent.type = .READ_TEXT ∨
        intent.type = .SAFETY_CHECK ∨ intent.type = .UNKNOWN) →
      (∀ i, 2 ≤ i → env.curId i ≠ cid) →
      ∀ p ∈ (processCommand st0 transcript cid env).trace, p.1 ≤ 1) ∧
    (∀ (st0 : SessionState) (transcript : String) (cid : Nat) (env : CmdEnv)
      (intent : IntentResult), env.classifyR = .ok intent →
      (intent.type = .DESCRIBE ∨ intent.type = .READ_TEXT ∨
        intent.type = .SAFETY_CHECK ∨ intent.type = .UNKNOWN) →
      (∀ i, 4 ≤ i → env.curId i ≠ cid) →
      ∀ p ∈ (processCommand st0 transcript cid env).trace, p.1 ≤ 3) ∧
    (∀ (st0 : SessionState) (transcript : String) (cid : Nat) (env : CmdEnv)
      (intent : IntentResult) (d : String), env.classifyR = .ok intent →
      intent.type = .NAVIGATE → intent.destination = some d →
      (∀ i, 3 ≤ i → env.curId i ≠ cid) →
      ∀ p ∈ (processCommand st0 transcript cid env).trace, p.1 ≤ 1) ∧
    (∀ (st0 : SessionState) (transcript : String) (cid : Nat) (env : CmdEnv)
      (intent : IntentResult), env.classifyR = .ok intent →
      intent.type = .WHERE_AM_I →
      (∀ i, 2 ≤ i → env.curId i ≠ cid) →
      ∀ p ∈ (processCommand st0 transcript cid env).trace, p.1 ≤ 2) ∧
    (∀ (st0 : SessionState) (transcript : String) (cid : Nat) (env : CmdEnv)
      (intent : IntentResult), env.classifyR = .ok intent →
      intent.type = .WHERE_AM_I →
      (∀ i, 3 ≤ i → env.curId i ≠ cid) →
      ∀ p ∈ (processCommand st0 transcript cid env).trace, p.1 ≤ 2) ∧
    (∀ (st0 : SessionState) (transcript : String) (cid : Nat) (env : CmdEnv)
      (intent : IntentResult), env.classifyR = .ok intent →
      intent.type = .WHERE_AM_I →
      (∀ i, 5 ≤ i → env.curId i ≠ cid) →
      ∀ p ∈ (processCommand st0 transcript cid env).trace, p.1 ≤ 4) :=
  ⟨fun st0 transcript cid env h =>
      c1_stale_after_classify st0 transcript cid env h,
   fun st0 transcript cid env intent d hcl htype hdest hstale =>
      c1_stale_after_nav_geolocate st0 transcript cid env intent d hcl htype hdest hstale,
   fun st0 transcript cid env intent hcl htype hstale =>
      c1_stale_after_visual_delay st0 transcript cid env intent hcl htype hstale,
   fun st0 transcript cid env intent hcl htype hstale =>
      c1_stale_after_visual_analyze st0 transcript cid env intent hcl htype hstale,
   fun st0 transcript cid env intent d hcl htype hdest hstale =>
      c1_stale_after_nav_plan st0 transcript cid env intent d hcl htype hdest hstale,
   fun st0 transcript cid env intent hcl hti hstale =>
      c1_stale_after_whereami_geolocate st0 transcript cid env intent hcl hti hstale,
   fun st0 transcript cid env intent hcl hti hstale =>
      c1_stale_after_whereami_delay st0 transcript cid env intent hcl hti hstale,
   fun st0 transcript cid env intent hcl hti hstale =>
      c1_stale_after_whereami_analyze st0 transcript cid env intent hcl hti hstale⟩

/-- Environment for the C1 witness: a DESCRIBE command superseded right after
intent classification. -/
def c1WitnessEnv : CmdEnv :=
  { curId := fun i => if i = 0 then 5 else 6
    classifyR := .ok
      { type := .DESCRIBE, confidence := 90, originalQuery := "describe this" }
    geoNav := Option.none
    planR := .ok Option.none
    geoVisual := Option.none
    captureR := .ok (some "frame")
    analyzeR := .ok "a quiet street" }

theorem c1_witness :
    ((processCommand c1State "describe this" 5 c1WitnessEnv).trace.all
      (fun p => decide (p.1 = 0))) = true := by
  rw [List.all_eq_true]
  intro p hp
  have h := c1_stale_id_abandons_at_checked_points.1 c1State "describe this" 5
    c1WitnessEnv (by intro hcontra; exact absurd hcontra (by decide)) p hp
  simpa using h

end SightMate